import Mathlib

/-!
Verification of the neo2-llkh low-level keyboard hook (src/main.cpp).

The development shallowly embeds the core of the program:
* `Settings` and `Settings.sanitize`  (main.cpp lines 65–104),
* `buildLayout` and its helpers       (lines 33–43, 180–343),
* `mapScanCodeToChar`                 (lines 348–350),
* `sendUnicodeChar` / `sendChar`      (lines 352–407),
* the layer special-case handlers     (lines 409–499),
* the modifier/lock state (`State`, lines 106–134) and the hook procedure
  `keyevent` (lines 571–845) as a pure step function
  `Settings → Layout → oracle → State → KeyEvent → State × List SynthEvent × HookResult`,
  where the oracle models the OS reverse keyboard-layout lookup `VkKeyScanEx`
  and `SynthEvent` records the calls to `keybd_event` / `SendInput`.

Wide characters (TCHAR, 16-bit code units) are modelled as `Nat`; the wide
string literals of the source are transcribed as lists of their code points
(all characters used are in the BMP, so one `TCHAR` per character).
-/

/-! ## Windows API constants used by the source -/

def VK_BACK : Nat := 0x08
def VK_TAB : Nat := 0x09
def VK_RETURN : Nat := 0x0D
def VK_SHIFT : Nat := 0x10
def VK_CONTROL : Nat := 0x11
def VK_MENU : Nat := 0x12
def VK_CAPITAL : Nat := 0x14
def VK_ESCAPE : Nat := 0x1B
def VK_SPACE : Nat := 0x20
def VK_PRIOR : Nat := 0x21
def VK_NEXT : Nat := 0x22
def VK_END : Nat := 0x23
def VK_HOME : Nat := 0x24
def VK_LEFT : Nat := 0x25
def VK_UP : Nat := 0x26
def VK_RIGHT : Nat := 0x27
def VK_DOWN : Nat := 0x28
def VK_INSERT : Nat := 0x2D
def VK_DELETE : Nat := 0x2E
def VK_LWIN : Nat := 0x5B
def VK_RWIN : Nat := 0x5C
def VK_LSHIFT : Nat := 0xA0
def VK_RSHIFT : Nat := 0xA1
def VK_LCONTROL : Nat := 0xA2
def VK_RCONTROL : Nat := 0xA3
def VK_LMENU : Nat := 0xA4
def VK_RMENU : Nat := 0xA5

def WM_KEYDOWN : Nat := 0x100
def WM_KEYUP : Nat := 0x101
def WM_SYSKEYDOWN : Nat := 0x104
def WM_SYSKEYUP : Nat := 0x105
def LLKHF_INJECTED : Nat := 0x10
def KEYEVENTF_KEYUP : Nat := 0x2
def KEYEVENTF_UNICODE : Nat := 0x4
def HC_ACTION : Int := 0

/-! ## Scan code constants (main.cpp lines 20–30) -/

def MAPPING_LEN : Nat := 103
def SCANCODE_TAB_KEY : Nat := 15
def SCANCODE_CAPSLOCK_KEY : Nat := 58
def SCANCODE_LOWER_THAN_KEY : Nat := 86
def SCANCODE_QUOTE_KEY : Nat := 40
def SCANCODE_HASH_KEY : Nat := 43
def SCANCODE_RETURN_KEY : Nat := 28

/-! ## Settings (main.cpp lines 65–104) -/

structure Settings where
  layout : String := "neo"
  debugWindow : Bool := false
  quoteAsMod3R : Bool := false
  returnAsMod3R : Bool := false
  tabAsMod4L : Bool := false
  capsLockEnabled : Bool := false
  shiftLockEnabled : Bool := false
  level4LockEnabled : Bool := false
  qwertzForShortcuts : Bool := false
  swapLeftCtrlAndLeftAlt : Bool := false
  swapLeftCtrlLeftAltAndLeftWin : Bool := false
  supportLevels5and6 : Bool := false
  capsLockAsEscape : Bool := false
  mod3RAsReturn : Bool := false
  mod4LAsTab : Bool := false
  scanCodeMod3L : Nat := SCANCODE_CAPSLOCK_KEY
  scanCodeMod3R : Nat := SCANCODE_HASH_KEY
  scanCodeMod4L : Nat := SCANCODE_LOWER_THAN_KEY
deriving DecidableEq

/-- Transcribes `Settings::sanitize` (main.cpp lines 87–103). -/
def Settings.sanitize (s : Settings) : Settings :=
  let s := if s.capsLockEnabled then { s with shiftLockEnabled := false } else s
  let s := if s.swapLeftCtrlLeftAltAndLeftWin then { s with swapLeftCtrlAndLeftAlt := false } else s
  let s :=
    if s.quoteAsMod3R then { s with scanCodeMod3R := SCANCODE_QUOTE_KEY }
    else if s.returnAsMod3R then { s with scanCodeMod3R := SCANCODE_RETURN_KEY }
    else s
  if s.tabAsMod4L then { s with scanCodeMod4L := SCANCODE_TAB_KEY } else s

/-! ## Layout tables (main.cpp lines 33–61, 180–343) -/

inductive Level where
  | l1 | l2 | l3 | l4 | l5 | l6
deriving DecidableEq

/-- A `KeyMapping`/`CharMapping` is a 103-entry array; entry 0 means "no mapping". -/
def emptyMapping : List Nat := List.replicate MAPPING_LEN 0

/-- Transcribes `KeyMapping::fillAtLiteral<O>(p)` (main.cpp lines 36–39): write the
characters of the literal `p` at offsets `O, O+1, …`. -/
def fillAt (off : Nat) (cs : List Nat) (m : List Nat) : List Nat :=
  match cs with
  | [] => m
  | c :: rest => fillAt (off + 1) rest (m.set off c)

structure Layout where
  level1 : List Nat
  level2 : List Nat
  level3 : List Nat
  level4 : List Nat
  level5 : List Nat
  level6 : List Nat
  is_kou_or_vue : Bool
  level4_specials : List Nat
deriving DecidableEq

/-- Transcribes `Layout::operator[]` (main.cpp line 60): the table of one level. -/
def Layout.atLevel (ly : Layout) : Level → List Nat
  | .l1 => ly.level1
  | .l2 => ly.level2
  | .l3 => ly.level3
  | .l4 => ly.level4
  | .l5 => ly.level5
  | .l6 => ly.level6

/-- Transcribes `lowerLetters = L"abcdefghijklmnopqrstuvwxyzäöüß.,"` (main.cpp line 197). -/
def lowerLetters : List Nat :=
  [0x61, 0x62, 0x63, 0x64, 0x65, 0x66, 0x67, 0x68, 0x69, 0x6a, 0x6b, 0x6c,
   0x6d, 0x6e, 0x6f, 0x70, 0x71, 0x72, 0x73, 0x74, 0x75, 0x76, 0x77, 0x78,
   0x79, 0x7a, 0xe4, 0xf6, 0xfc, 0xdf, 0x2e, 0x2c]

/-- Transcribes `mapLevelsLetters` (main.cpp lines 200–208): for every slot whose `base`
character occurs in `lowerLetters` at index `c`, write `newChars[c]`; all
other slots keep the value already in `out`. -/
def mapLevelsLetters (base out newChars : List Nat) : List Nat :=
  List.zipWith
    (fun b o =>
      match List.findIdx? (fun x => x = b) lowerLetters with
      | some c => newChars.getD c 0
      | none => o)
    base out

/-- The level-4 specials table (main.cpp lines 312–340): virtual-key action
codes at fixed slots; slots 17–20 and 44–47 are ordered differently for the
kou/vou variant family.  Slot 57 (space) holds the character `'0'` (48). -/
def mkSpecials (kou : Bool) : List Nat :=
  let m := emptyMapping.set 16 VK_PRIOR
  let m :=
    if kou then (((m.set 17 VK_NEXT).set 18 VK_UP).set 19 VK_BACK).set 20 VK_DELETE
    else (((m.set 17 VK_BACK).set 18 VK_UP).set 19 VK_DELETE).set 20 VK_NEXT
  let m := ((((m.set 30 VK_HOME).set 31 VK_LEFT).set 32 VK_DOWN).set 33 VK_RIGHT).set 34 VK_END
  let m :=
    if kou then (((m.set 44 VK_INSERT).set 45 VK_TAB).set 46 VK_RETURN).set 47 VK_ESCAPE
    else (((m.set 44 VK_ESCAPE).set 45 VK_TAB).set 46 VK_INSERT).set 47 VK_RETURN
  m.set 57 48

/-- The 32 uppercase substitution characters
`L"ABCDEFGHIJKLMNOPQRSTUVWXYZÄÖÜẞ•–"` (main.cpp line 283). -/
def upperLetters : List Nat :=
  [0x41, 0x42, 0x43, 0x44, 0x45, 0x46, 0x47, 0x48, 0x49, 0x4a, 0x4b, 0x4c,
   0x4d, 0x4e, 0x4f, 0x50, 0x51, 0x52, 0x53, 0x54, 0x55, 0x56, 0x57, 0x58,
   0x59, 0x5a, 0xc4, 0xd6, 0xdc, 0x1e9e, 0x2022, 0x2013]

/-- The 32 greek-letter substitution characters of level 5 (main.cpp line 286). -/
def greekLetters : List Nat :=
  [0x3b1, 0x3b2, 0x3c7, 0x3b4, 0x3b5, 0x3c6, 0x3b3, 0x3c8, 0x3b9, 0x3b8,
   0x3ba, 0x3bb, 0x3bc, 0x3bd, 0x3bf, 0x3c0, 0x3d5, 0x3c1, 0x3c3, 0x3c4,
   0x75, 0x76, 0x3c9, 0x3be, 0x3c5, 0x3b6, 0x3b7, 0x3f5, 0xfc, 0x3c2, 0x3d1, 0x3f1]

/-- The 32 mathematical-symbol substitution characters of level 6 (main.cpp line 287). -/
def mathLetters : List Nat :=
  [0x2200, 0x21d0, 0x2102, 0x394, 0x2203, 0x3a6, 0x393, 0x3a8, 0x222b, 0x398,
   0x2a2f, 0x39b, 0x21d4, 0x2115, 0x2208, 0x3a0, 0x211a, 0x211d, 0x3a3, 0x2202,
   0x2282, 0x221a, 0x3a9, 0x39e, 0x2207, 0x2124, 0x2135, 0x2229, 0x222a, 0x2218,
   0x21a6, 0x21d2]

/-- Level-1 overlays shared by all variants (main.cpp lines 214–215):
`fillAtLiteral<2>(L"1234567890-`...")` and the dead key at 27. -/
def commonLevel1 : List Nat :=
  fillAt 27 [0xb4]
    (fillAt 2 [0x31, 0x32, 0x33, 0x34, 0x35, 0x36, 0x37, 0x38, 0x39, 0x30, 0x2d, 0x60]
      emptyMapping)

/-- Level-2 overlays shared by all variants (main.cpp lines 217–219). -/
def commonLevel2 : List Nat :=
  fillAt 27 [0x7e]
    (fillAt 2 [0xb0, 0xa7, 0x2113, 0xbb, 0xab, 0x24, 0x20ac, 0x201e, 0x201c, 0x201d, 0x2014, 0x327]
      (fillAt 41 [0x30c] emptyMapping))

/-- Level-3 overlays shared by all variants (main.cpp lines 221–225). -/
def commonLevel3 : List Nat :=
  fillAt 44 [0x23, 0x24, 0x7c, 0x7e, 0x60, 0x2b, 0x25, 0x22, 0x27, 0x3b]
    (fillAt 30 [0x5c, 0x2f, 0x7b, 0x7d, 0x2a, 0x3f, 0x28, 0x29, 0x2d, 0x3a, 0x40]
      (fillAt 16 [0x2026, 0x5f, 0x5b, 0x5d, 0x5e, 0x21, 0x3c, 0x3e, 0x3d, 0x26, 0x17f, 0x337]
        (fillAt 2 [0xb9, 0xb2, 0xb3, 0x203a, 0x2039, 0xa2, 0xa5, 0x201a, 0x2018, 0x2019, 0x2014, 0x30a]
          (fillAt 41 [0x5e] emptyMapping))))

/-- Level-4 overlays shared by all variants (main.cpp lines 227–231). -/
def commonLevel4 : List Nat :=
  fillAt 49 [0x3a, 0x31, 0x32, 0x33, 0x3b]
    (fillAt 35 [0xbf, 0x34, 0x35, 0x36, 0x2c, 0x2e]
      (fillAt 21 [0xa1, 0x37, 0x38, 0x39, 0x2b, 0x2212, 0x2dd]
        (fillAt 2 [0xaa, 0xba, 0x2116, 0x22ee, 0xb7, 0xa3, 0xa4, 0x30, 0x2f, 0x2a, 0x2d, 0xa8]
          (fillAt 41 [0x307] emptyMapping))))

/-- The layout-dependent branch of `buildLayout` (main.cpp lines 234–280):
level-1 letters per variant; the kou/vou family additionally replaces the
level-3 and level-4 overlays and sets the `is_kou_or_vue` flag.  Returns
(level1, level3, level4, is_kou_or_vue). -/
def variantTables (st : Settings) : List Nat × List Nat × List Nat × Bool :=
  if st.layout = "adnw" then
    (fillAt 44 [0x78, 0x79, 0xf6, 0x2c, 0x71, 0x62, 0x70, 0x77, 0x6d, 0x7a]
      (fillAt 30 [0x68, 0x69, 0x65, 0x61, 0x6f, 0x64, 0x74, 0x72, 0x6e, 0x73, 0xdf]
        (fillAt 16 [0x6b, 0x75, 0xfc, 0x2e, 0xe4, 0x76, 0x67, 0x63, 0x6c, 0x6a, 0x66, 0xb4]
          commonLevel1)),
     commonLevel3, commonLevel4, false)
  else if st.layout = "adnwzjf" then
    (fillAt 44 [0x78, 0x79, 0xf6, 0x2c, 0x71, 0x62, 0x70, 0x77, 0x6d, 0x6a]
      (fillAt 30 [0x68, 0x69, 0x65, 0x61, 0x6f, 0x64, 0x74, 0x72, 0x6e, 0x73, 0x66]
        (fillAt 16 [0x6b, 0x75, 0xfc, 0x2e, 0xe4, 0x76, 0x67, 0x63, 0x6c, 0xdf, 0x7a, 0xb4]
          commonLevel1)),
     commonLevel3, commonLevel4, false)
  else if st.layout = "bone" then
    (fillAt 44 [0x66, 0x76, 0xfc, 0xe4, 0xf6, 0x79, 0x7a, 0x2c, 0x2e, 0x6b]
      (fillAt 30 [0x63, 0x74, 0x69, 0x65, 0x6f, 0x62, 0x6e, 0x72, 0x73, 0x67, 0x71]
        (fillAt 16 [0x6a, 0x64, 0x75, 0x61, 0x78, 0x70, 0x68, 0x6c, 0x6d, 0x77, 0xdf, 0xb4]
          commonLevel1)),
     commonLevel3, commonLevel4, false)
  else if st.layout = "koy" then
    (fillAt 44 [0x78, 0x71, 0xe4, 0xfc, 0xf6, 0x62, 0x70, 0x77, 0x6d, 0x6a]
      (fillAt 30 [0x68, 0x61, 0x65, 0x69, 0x75, 0x64, 0x74, 0x72, 0x6e, 0x73, 0x66]
        (fillAt 16 [0x6b, 0x2e, 0x6f, 0x2c, 0x79, 0x76, 0x67, 0x63, 0x6c, 0xdf, 0x7a, 0xb4]
          commonLevel1)),
     commonLevel3, commonLevel4, false)
  else if st.layout = "kou" ∨ st.layout = "vou" then
    let l1k :=
      if st.layout = "kou" then
        fillAt 44 [0x7a, 0x78, 0x2c, 0xfc, 0xf6, 0x70, 0x64, 0x77, 0x6d, 0x76]
          (fillAt 30 [0x68, 0x61, 0x65, 0x69, 0x79, 0x62, 0x74, 0x72, 0x6e, 0x73, 0xdf]
            (fillAt 16 [0x6b, 0x2e, 0x6f, 0x75, 0xe4, 0x71, 0x67, 0x63, 0x6c, 0x66, 0x6a, 0xb4]
              commonLevel1))
      else  -- vou
        fillAt 44 [0x7a, 0x78, 0x2c, 0xfc, 0xf6, 0x70, 0x64, 0x77, 0x6d, 0x6b]
          (fillAt 30 [0x63, 0x61, 0x65, 0x69, 0x79, 0x62, 0x74, 0x72, 0x6e, 0x73, 0xdf]
            (fillAt 16 [0x76, 0x2e, 0x6f, 0x75, 0xe4, 0x71, 0x67, 0x6c, 0x68, 0x66, 0x6a, 0xb4]
              commonLevel1))
    let l3k := fillAt 44 [0x23, 0x5b, 0x5d, 0x7e, 0x24, 0x2b, 0x22, 0x27, 0x5c, 0x3b]
      (fillAt 30 [0x7c, 0x60, 0x28, 0x29, 0x2a, 0x3f, 0x2f, 0x3a, 0x2d, 0x5f, 0x2192]
        (fillAt 16 [0x40, 0x25, 0x7b, 0x7d, 0x5e, 0x21, 0x3c, 0x3e, 0x3d, 0x26, 0x20ac, 0x337]
          commonLevel3))
    let l4k := fillAt 49 [0x5f, 0x31, 0x32, 0x33, 0x2e]
      (fillAt 35 [0x2d, 0x34, 0x35, 0x36, 0x2c, 0x3b]
        (fillAt 21 [0x3a, 0x37, 0x38, 0x39, 0x2b, 0x2212, 0x2dd]
          (fillAt 4 [0x2714, 0x2718, 0xb7, 0xa3, 0xa4, 0x30, 0x2f, 0x2a, 0x2d, 0xa8]
            commonLevel4)))
    (l1k, l3k, l4k, true)
  else  -- neo
    (fillAt 44 [0xfc, 0xf6, 0xe4, 0x70, 0x7a, 0x62, 0x6d, 0x2c, 0x2e, 0x6a]
      (fillAt 30 [0x75, 0x69, 0x61, 0x65, 0x6f, 0x73, 0x6e, 0x72, 0x74, 0x64, 0x79]
        (fillAt 16 [0x78, 0x76, 0x6c, 0x63, 0x77, 0x6b, 0x68, 0x67, 0x66, 0x71, 0xdf, 0xb4]
          commonLevel1)),
     commonLevel3, commonLevel4, false)

/-- Transcribes `buildLayout` (main.cpp lines 210–343): common overlays, variant branch,
letter substitution for levels 2/5/6, the level-5/6 overlays and space
slots, the conditional quote-column copy (lines 301–308), the euro sign on
level 2 (line 310), and the level-4 specials table (lines 312–340). -/
def buildLayout (st : Settings) : Layout :=
  let v := variantTables st
  let l1 := v.1
  let l3 := v.2.1
  let l4 := v.2.2.1
  let kou := v.2.2.2
  -- map letters of level 2
  let l2 := mapLevelsLetters l1 commonLevel2 upperLetters
  -- map main block on levels 5 and 6
  let l5 := mapLevelsLetters l1 emptyMapping greekLetters
  let l6 := mapLevelsLetters l1 emptyMapping mathLetters
  -- add number row and dead key in upper letter row; space = no-break space
  let l5 := (fillAt 27 [0x1fbf]
    (fillAt 2 [0x2081, 0x2082, 0x2083, 0x2642, 0x2640, 0x26a5, 0x3f0, 0x27e8, 0x27e9, 0x2080, 0x3f, 0x1ffe]
      (fillAt 41 [0x309] l5))).set 57 0xa0
  let l6 := (fillAt 27 [0x2d8]
    (fillAt 2 [0xac, 0x2228, 0x2227, 0x22a5, 0x2221, 0x2225, 0x2192, 0x221e, 0x221d, 0x2300, 0x3f, 0x304]
      (fillAt 41 [0x323] l6))).set 57 0x202f
  -- if quote/ä is the right level 3 modifier, copy symbol of quote/ä key to backslash/# key
  let l1 := if st.quoteAsMod3R then l1.set 43 (l1.getD 40 0) else l1
  let l2 := if st.quoteAsMod3R then l2.set 43 (l2.getD 40 0) else l2
  let l3 := if st.quoteAsMod3R then l3.set 43 (l3.getD 40 0) else l3
  let l4 := if st.quoteAsMod3R then l4.set 43 (l4.getD 40 0) else l4
  let l5 := if st.quoteAsMod3R then l5.set 43 (l5.getD 40 0) else l5
  let l6 := if st.quoteAsMod3R then l6.set 43 (l6.getD 40 0) else l6
  let l2 := l2.set 8 0x20ac
  { level1 := l1, level2 := l2, level3 := l3, level4 := l4, level5 := l5, level6 := l6,
    is_kou_or_vue := kou, level4_specials := mkSpecials kou }

/-! ## Modifier and lock state (main.cpp lines 106–134) -/

structure State where
  bypassMode : Bool := false
  shiftPressed : Bool := false
  mod3Pressed : Bool := false
  mod4Pressed : Bool := false
  shiftLeftPressed : Bool := false
  shiftRightPressed : Bool := false
  shiftLockActive : Bool := false
  capsLockActive : Bool := false
  level3modLeftPressed : Bool := false
  level3modRightPressed : Bool := false
  level3modLeftAndNoOtherKeyPressed : Bool := false
  level3modRightAndNoOtherKeyPressed : Bool := false
  level4modLeftAndNoOtherKeyPressed : Bool := false
  level4modLeftPressed : Bool := false
  level4modRightPressed : Bool := false
  level4LockActive : Bool := false
  ctrlLeftPressed : Bool := false
  ctrlRightPressed : Bool := false
  altLeftPressed : Bool := false
  winLeftPressed : Bool := false
  winRightPressed : Bool := false
deriving DecidableEq

/-- The zero-initialised global `g_state` (main.cpp line 140). -/
def initState : State := {}

/-- One entry of the low-level hook: the relevant fields of
`KBDLLHOOKSTRUCT` plus the hook arguments `code` and `wparam`. -/
structure KeyEvent where
  code : Int := HC_ACTION
  wparam : Nat
  scanCode : Nat
  vkCode : Nat
  flags : Nat := 0
  extraInfo : Nat := 0
deriving DecidableEq

/-- A synthesized output event: a `keybd_event(vk, scan, flags, extraInfo)`
call, or a `SendInput` of one `KEYEVENTF_UNICODE` character
(`sendUnicodeChar`, main.cpp lines 352–358). -/
inductive SynthEvent where
  | keybd (vk scan flags extraInfo : Nat)
  | unicode (c : Nat)
deriving DecidableEq

/-- The hook's decision: pass the event on (`CallNextHookEx`) or swallow it
(`return -1`). -/
inductive HookResult where
  | callNext
  | block
deriving DecidableEq

/-- Transcribes `toggleBypassMode` (main.cpp lines 886–894), state part only (the icon
swap and log output have no effect on the engine). -/
def toggleBypassMode (s : State) : State :=
  { s with bypassMode := !s.bypassMode }

/-! ## Small predicates (main.cpp lines 501–528) -/

/-- Transcribes `isShift` (main.cpp lines 501–503). -/
def isShift (e : KeyEvent) : Bool :=
  e.vkCode == VK_SHIFT || e.vkCode == VK_LSHIFT || e.vkCode == VK_RSHIFT

/-- Transcribes `isMod3` (main.cpp lines 505–508). -/
def isMod3 (st : Settings) (e : KeyEvent) : Bool :=
  e.scanCode == st.scanCodeMod3L || e.scanCode == st.scanCodeMod3R

/-- Transcribes `isMod4` (main.cpp lines 510–513). -/
def isMod4 (st : Settings) (e : KeyEvent) : Bool :=
  e.scanCode == st.scanCodeMod4L || e.vkCode == VK_RMENU

/-- Transcribes `isSystemKeyPressed` (main.cpp lines 515–519). -/
def isSystemKeyPressed (s : State) : Bool :=
  s.ctrlLeftPressed || s.ctrlRightPressed || s.altLeftPressed
    || s.winLeftPressed || s.winRightPressed

/-- Transcribes `isLetter` (main.cpp lines 521–528). -/
def isLetter (key : Nat) : Bool :=
  (0x41 ≤ key && key ≤ 0x5a) || (0x61 ≤ key && key ≤ 0x7a)
    || key == 0xe4 || key == 0xf6 || key == 0xfc || key == 0xdf
    || key == 0xc4 || key == 0xd6 || key == 0xdc || key == 0x1e9e

/-! ## Level resolution (main.cpp lines 763–772) -/

/-- The level-resolution lambda inside `keyevent` (main.cpp lines 763–772),
recomputed on every key-down. -/
def computeLevel (st : Settings) (s : State) : Level :=
  if st.supportLevels5and6 && ((s.shiftPressed != s.shiftLockActive) && s.mod3Pressed) then .l5
  else if st.supportLevels5and6 && (s.mod3Pressed && (s.mod4Pressed != s.level4LockActive)) then .l6
  else if s.mod4Pressed != s.level4LockActive then .l4
  else if s.mod3Pressed then .l3
  else if s.shiftPressed != s.shiftLockActive then .l2
  else .l1

/-! ## Synthetic input emitter (main.cpp lines 345–407)

The OS reverse keyboard-layout lookup `VkKeyScanEx(key, layout)` is an
external collaborator; it is modelled by an oracle `os : Nat → Int` that
returns `-1` when no virtual-key/modifier combination produces the
character, else the 16-bit result (low byte: virtual key; high byte:
modifier bits 1 = shift, 2 = alt, 4 = ctrl). -/

/-- Transcribes `mapScanCodeToChar` (main.cpp lines 348–350): directly indexes the
103-entry level table with the raw scan code (no bounds check in the
source; the in-bounds lookup is modelled with `getD`, see `scanCodeInBounds`
for the safety condition). -/
def mapScanCodeToChar (ly : Layout) (level : Level) (i : Nat) : Nat :=
  (ly.atLevel level).getD i 0

/-- The in-bounds condition of the source's unchecked array accesses
`g_layout[level].mapping[in]` and `level4_specials.mapping[scanCode]`
(arrays of `MAPPING_LEN = 103` entries). -/
def scanCodeInBounds (i : Nat) : Prop := i < MAPPING_LEN

/-- Transcribes `sendUnicodeChar` (main.cpp lines 352–358). -/
def sendUnicodeChar (key : Nat) : List SynthEvent :=
  [SynthEvent.unicode key]

/-- Transcribes `sendChar` (main.cpp lines 365–407), returning the list of synthesized
events in the order they are produced. -/
def sendChar (os : Nat → Int) (s : State) (key : Nat) (ki : KeyEvent) : List SynthEvent :=
  let keyScanResult := os key
  if keyScanResult == -1 || s.shiftLockActive || s.capsLockActive || s.level4LockActive
      || (0x30 ≤ ki.vkCode && ki.vkCode ≤ 0x39) then
    sendUnicodeChar key
  else
    let r := keyScanResult.toNat
    let modifiers := (r >>> 8) &&& 0xff
    let shift := modifiers &&& 1 != 0
    let alt := modifiers &&& 2 != 0
    let ctrl := modifiers &&& 4 != 0
    let altgr := alt && ctrl
    let ctrl := ctrl && !altgr
    let alt := alt && !altgr
    (if altgr then [SynthEvent.keybd VK_RMENU 0 0 0] else [])
      ++ (if ctrl then [SynthEvent.keybd VK_CONTROL 0 0 0] else [])
      ++ (if alt then [SynthEvent.keybd VK_MENU 0 0 0] else [])
      ++ (if shift then [SynthEvent.keybd VK_SHIFT 0 0 0] else [])
      ++ [SynthEvent.keybd r ki.scanCode ki.flags ki.extraInfo]
      ++ (if altgr then [SynthEvent.keybd VK_RMENU 0 KEYEVENTF_KEYUP 0] else [])
      ++ (if ctrl then [SynthEvent.keybd VK_CONTROL 0 KEYEVENTF_KEYUP 0] else [])
      ++ (if alt then [SynthEvent.keybd VK_MENU 0 KEYEVENTF_KEYUP 0] else [])
      ++ (if shift then [SynthEvent.keybd VK_SHIFT 0 KEYEVENTF_KEYUP 0] else [])

/-! ## Layer special-case handlers (main.cpp lines 409–499)

Each handler returns `some out` when it handled the key (C `return true`,
with `out` the synthesized events) and `none` otherwise (C `return false`). -/

/-- Transcribes `handleLayer2SpecialCases` (main.cpp lines 409–421). -/
def handleLayer2SpecialCases (os : Nat → Int) (s : State) (ki : KeyEvent) :
    Option (List SynthEvent) :=
  if ki.scanCode == 27 then some (sendChar os s 0x303 ki)   -- perispomene
  else if ki.scanCode == 41 then some (sendChar os s 0x30c ki)  -- caron
  else none

/-- Transcribes `handleLayer3SpecialCases` (main.cpp lines 423–453). -/
def handleLayer3SpecialCases (ly : Layout) (os : Nat → Int) (s : State) (ki : KeyEvent) :
    Option (List SynthEvent) :=
  if ki.scanCode == 13 then some (sendChar os s 0x30a ki)   -- overring
  else if ki.scanCode == 20 then
    some (sendChar os s 0x5e ki ++ [SynthEvent.keybd VK_SPACE 0 0 0])
  else if ki.scanCode == 27 then some (sendChar os s 0x337 ki)  -- combining bar
  else if ki.scanCode == 31 then
    if ly.is_kou_or_vue then
      some (sendChar os s 0x60 ki ++ [SynthEvent.keybd VK_SPACE 0 0 0])
    else none
  else if ki.scanCode == 48 then
    if ly.is_kou_or_vue then
      some (sendChar os s 0x60 ki ++ [SynthEvent.keybd VK_SPACE 0 0 0])
    else none
  else none

/-- Transcribes `handleLayer4SpecialCases` (main.cpp lines 455–499).  The table read
`level4_specials.mapping[keyInfo.scanCode]` is the source's second
unchecked array access. -/
def handleLayer4SpecialCases (ly : Layout) (os : Nat → Int) (s : State) (ki : KeyEvent) :
    Option (List SynthEvent) :=
  if ki.scanCode == 13 then some (sendChar os s 0xa8 ki)   -- diaeresis
  else if ki.scanCode == 27 then some (sendChar os s 0x2dd ki)  -- double acute
  else if ki.scanCode == 41 then some (sendChar os s 0x307 ki)  -- dot above
  else
    let mapped := ly.level4_specials.getD ki.scanCode 0
    if mapped != 0 then some [SynthEvent.keybd mapped 0 0x01 0]
    else none

/-! ## The hook procedure `keyevent` (main.cpp lines 571–845)

The step function returns the successor state, the list of synthesized
events (`keybd_event` / `SendInput` calls, in order), and whether the
original event is passed on or swallowed. -/

/-- Result triple of one hook invocation. -/
abbrev HookStep := State × List SynthEvent × HookResult

/-- Key-up handling (main.cpp lines 599–717 plus the shared fall-through to
`CallNextHookEx`). -/
def keyeventUp (st : Settings) (s : State) (e : KeyEvent) : HookStep :=
  if isShift e then
    if e.vkCode == VK_RSHIFT then
      let s := { s with shiftRightPressed := false }
      let s :=
        if s.shiftLeftPressed then
          if st.shiftLockEnabled then { s with shiftLockActive := !s.shiftLockActive }
          else if st.capsLockEnabled then { s with capsLockActive := !s.capsLockActive }
          else s
        else s
      ({ s with shiftPressed := s.shiftLeftPressed || s.shiftRightPressed },
       [SynthEvent.keybd VK_RSHIFT 54 KEYEVENTF_KEYUP 0], .block)
    else
      let s := { s with shiftLeftPressed := false }
      let s :=
        if s.shiftRightPressed then
          if st.shiftLockEnabled then { s with shiftLockActive := !s.shiftLockActive }
          else if st.capsLockEnabled then { s with capsLockActive := !s.capsLockActive }
          else s
        else s
      ({ s with shiftPressed := s.shiftLeftPressed || s.shiftRightPressed },
       [SynthEvent.keybd VK_LSHIFT 42 KEYEVENTF_KEYUP 0], .block)
  else if isMod3 st e then
    if e.scanCode == st.scanCodeMod3R then
      let s := { s with level3modRightPressed := false }
      if st.mod3RAsReturn && s.level3modRightAndNoOtherKeyPressed then
        ({ s with level3modRightAndNoOtherKeyPressed := false },
         [SynthEvent.keybd e.vkCode 0 KEYEVENTF_KEYUP 0,
          SynthEvent.keybd VK_RETURN 0 0x01 0], .block)
      else
        ({ s with mod3Pressed := s.level3modLeftPressed || s.level3modRightPressed }, [], .block)
    else  -- scanCodeMod3L (CapsLock)
      let s := { s with level3modLeftPressed := false }
      if st.capsLockAsEscape && s.level3modLeftAndNoOtherKeyPressed then
        ({ s with level3modLeftAndNoOtherKeyPressed := false },
         [SynthEvent.keybd VK_CAPITAL 0 KEYEVENTF_KEYUP 0,
          SynthEvent.keybd VK_ESCAPE 0 0x01 0], .block)
      else
        ({ s with mod3Pressed := s.level3modLeftPressed || s.level3modRightPressed }, [], .block)
  else if isMod4 st e then
    if e.scanCode == st.scanCodeMod4L then
      let s := { s with level4modLeftPressed := false }
      if s.level4modRightPressed && st.level4LockEnabled then
        let s := { s with level4LockActive := !s.level4LockActive }
        ({ s with mod4Pressed := s.level4modLeftPressed || s.level4modRightPressed }, [], .block)
      else if st.mod4LAsTab && s.level4modLeftAndNoOtherKeyPressed then
        ({ s with level4modLeftAndNoOtherKeyPressed := false },
         [SynthEvent.keybd e.vkCode 0 KEYEVENTF_KEYUP 0,
          SynthEvent.keybd VK_TAB 0 0x01 0], .block)
      else
        ({ s with mod4Pressed := s.level4modLeftPressed || s.level4modRightPressed }, [], .block)
    else  -- scanCodeMod4R
      let s := { s with level4modRightPressed := false }
      let s :=
        if s.level4modLeftPressed && st.level4LockEnabled then
          { s with level4LockActive := !s.level4LockActive }
        else s
      ({ s with mod4Pressed := s.level4modLeftPressed || s.level4modRightPressed }, [], .block)
  else if e.vkCode == VK_LCONTROL && e.scanCode == 29 then
    if st.swapLeftCtrlAndLeftAlt then
      ({ s with altLeftPressed := false }, [SynthEvent.keybd VK_LMENU 0 KEYEVENTF_KEYUP 0], .block)
    else if st.swapLeftCtrlLeftAltAndLeftWin then
      ({ s with winLeftPressed := false }, [SynthEvent.keybd VK_LWIN 0 KEYEVENTF_KEYUP 0], .block)
    else
      ({ s with ctrlLeftPressed := false }, [SynthEvent.keybd VK_LCONTROL 0 KEYEVENTF_KEYUP 0], .block)
  else if e.vkCode == VK_RCONTROL then
    ({ s with ctrlRightPressed := false }, [], .callNext)
  else if e.vkCode == VK_LMENU then
    if st.swapLeftCtrlAndLeftAlt || st.swapLeftCtrlLeftAltAndLeftWin then
      ({ s with ctrlLeftPressed := false }, [SynthEvent.keybd VK_LCONTROL 0 KEYEVENTF_KEYUP 0], .block)
    else
      ({ s with altLeftPressed := false }, [SynthEvent.keybd VK_LMENU 0 KEYEVENTF_KEYUP 0], .block)
  else if e.vkCode == VK_LWIN then
    if st.swapLeftCtrlLeftAltAndLeftWin then
      ({ s with altLeftPressed := false }, [SynthEvent.keybd VK_LMENU 0 KEYEVENTF_KEYUP 0], .block)
    else
      ({ s with winLeftPressed := false }, [SynthEvent.keybd VK_LWIN 0 KEYEVENTF_KEYUP 0], .block)
  else if e.vkCode == VK_RWIN then
    ({ s with winRightPressed := false }, [], .callNext)
  else
    (s, [], .callNext)

/-- Key-down handling after the ctrl/alt/win identity-swap chain: level
computation and the main dispatch (main.cpp lines 763–836, plus the shared
fall-through to `CallNextHookEx`). -/
def keyDownTail (st : Settings) (ly : Layout) (os : Nat → Int) (s : State) (e : KeyEvent) :
    HookStep :=
  let level := computeLevel st s
  if isShift e then
    let s := { s with shiftPressed := true }
    if e.vkCode == VK_RSHIFT then
      ({ s with shiftRightPressed := true }, [SynthEvent.keybd VK_RSHIFT 0 0 0], .block)
    else
      ({ s with shiftLeftPressed := true }, [SynthEvent.keybd VK_LSHIFT 0 0 0], .block)
  else if isMod3 st e then
    let s := { s with mod3Pressed := true }
    if e.scanCode == st.scanCodeMod3R then
      ({ s with level3modRightPressed := true, level3modRightAndNoOtherKeyPressed := true },
       [], .block)
    else  -- VK_CAPITAL (CapsLock)
      ({ s with level3modLeftPressed := true, level3modLeftAndNoOtherKeyPressed := true },
       [], .block)
  else if isMod4 st e then
    let s := { s with mod4Pressed := true }
    if e.scanCode == st.scanCodeMod4L then
      ({ s with level4modLeftPressed := true, level4modLeftAndNoOtherKeyPressed := true },
       [], .block)
    else  -- scanCodeMod4R: AltGr also sends LCONTROL; send RMENU keyup
      ({ s with level4modRightPressed := true },
       [SynthEvent.keybd VK_RMENU 0 KEYEVENTF_KEYUP 0], .block)
  else
    match (if level = Level.l2 then handleLayer2SpecialCases os s e else none) with
    | some out => (s, out, .block)
    | none =>
    match (if level = Level.l3 then handleLayer3SpecialCases ly os s e else none) with
    | some out => (s, out, .block)
    | none =>
    match (if level = Level.l4 then handleLayer4SpecialCases ly os s e else none) with
    | some out => (s, out, .block)
    | none =>
    if 0x60 ≤ e.vkCode && e.vkCode ≤ 0x6f then
      -- Numeric keypad -> don't remap
      (s, [], .callNext)
    else if !(st.qwertzForShortcuts && isSystemKeyPressed s) then
      let key := mapScanCodeToChar ly level e.scanCode
      let key :=
        if s.capsLockActive && (level = Level.l1 || level = Level.l2) && isLetter key then
          mapScanCodeToChar ly (if level = Level.l1 then Level.l2 else Level.l1) e.scanCode
        else key
      if key != 0 && e.flags &&& LLKHF_INJECTED == 0 then
        (s, sendChar os s key e, .block)
      else
        (s, [], .callNext)
    else
      (s, [], .callNext)

/-- Key-down handling (main.cpp lines 719–836): clear the sole-key flags,
run the ctrl/alt/win identity-swap chain (whose `VK_RCONTROL`/`VK_RWIN`
cases fall through into the main dispatch), then `keyDownTail`. -/
def keyeventDown (st : Settings) (ly : Layout) (os : Nat → Int) (s : State) (e : KeyEvent) :
    HookStep :=
  let s := { s with
    level3modLeftAndNoOtherKeyPressed := false,
    level3modRightAndNoOtherKeyPressed := false,
    level4modLeftAndNoOtherKeyPressed := false }
  if e.vkCode == VK_LCONTROL && e.scanCode == 29 then
    if st.swapLeftCtrlAndLeftAlt then
      ({ s with altLeftPressed := true }, [SynthEvent.keybd VK_LMENU 0 0 0], .block)
    else if st.swapLeftCtrlLeftAltAndLeftWin then
      ({ s with winLeftPressed := true }, [SynthEvent.keybd VK_LWIN 0 0 0], .block)
    else
      ({ s with ctrlLeftPressed := true }, [SynthEvent.keybd VK_LCONTROL 0 0 0], .block)
  else if e.vkCode == VK_RCONTROL then
    keyDownTail st ly os { s with ctrlRightPressed := true } e
  else if e.vkCode == VK_LMENU then
    if st.swapLeftCtrlAndLeftAlt || st.swapLeftCtrlLeftAltAndLeftWin then
      ({ s with ctrlLeftPressed := true }, [SynthEvent.keybd VK_LCONTROL 0 0 0], .block)
    else
      ({ s with altLeftPressed := true }, [SynthEvent.keybd VK_LMENU 0 0 0], .block)
  else if e.vkCode == VK_LWIN then
    if st.swapLeftCtrlLeftAltAndLeftWin then
      ({ s with altLeftPressed := true }, [SynthEvent.keybd VK_LMENU 0 0 0], .block)
    else
      ({ s with winLeftPressed := true }, [SynthEvent.keybd VK_LWIN 0 0 0], .block)
  else if e.vkCode == VK_RWIN then
    keyDownTail st ly os { s with winRightPressed := true } e
  else
    keyDownTail st ly os s e

/-- Transcribes `keyevent` (main.cpp lines 571–845): the full hook procedure as a step
function. -/
def keyevent (st : Settings) (ly : Layout) (os : Nat → Int) (s : State) (e : KeyEvent) :
    HookStep :=
  if e.code != HC_ACTION then (s, [], .callNext)
  else
    let keyUp := e.wparam == WM_SYSKEYUP || e.wparam == WM_KEYUP
    let keyDown := e.wparam == WM_SYSKEYDOWN || e.wparam == WM_KEYDOWN
    if !keyUp && !keyDown then (s, [], .callNext)
    else if e.flags &&& LLKHF_INJECTED != 0 then
      -- process injected events like normal, because most probably we are injecting them
      (s, [], .callNext)
    else if keyDown && s.shiftPressed && e.scanCode == 69 then
      (toggleBypassMode s, [], .block)  -- Shift + Pause
    else if s.bypassMode then (s, [], .callNext)
    else if keyUp then keyeventUp st s e
    else keyeventDown st ly os s e

/-- Successor state of one hook invocation. -/
def stepState (st : Settings) (ly : Layout) (os : Nat → Int) (s : State) (e : KeyEvent) : State :=
  (keyevent st ly os s e).1

/-- Events synthesized by one hook invocation. -/
def stepOut (st : Settings) (ly : Layout) (os : Nat → Int) (s : State) (e : KeyEvent) :
    List SynthEvent :=
  (keyevent st ly os s e).2.1

/-- State after a sequence of hook invocations. -/
def runState (st : Settings) (ly : Layout) (os : Nat → Int) : State → List KeyEvent → State
  | s, [] => s
  | s, e :: es => runState st ly os (stepState st ly os s e) es

/-- An event is a key-down transition (main.cpp line 579). -/
def isKeyDownEvent (e : KeyEvent) : Bool :=
  e.wparam == WM_SYSKEYDOWN || e.wparam == WM_KEYDOWN

/-- An event is a key-up transition (main.cpp line 578). -/
def isKeyUpEvent (e : KeyEvent) : Bool :=
  e.wparam == WM_SYSKEYUP || e.wparam == WM_KEYUP

/-- A press of the physical right-mod3 key: a hook `code` of `HC_ACTION`, a
non-injected key-down whose scan code is the configured mod3R scan code,
and whose virtual key is not one of the virtual keys the classifier
dispatches on before reaching the mod3 branch. -/
def isMod3RDown (st : Settings) (e : KeyEvent) : Prop :=
  e.code = HC_ACTION ∧ isKeyDownEvent e = true ∧ e.flags &&& LLKHF_INJECTED = 0 ∧
    e.scanCode = st.scanCodeMod3R ∧ isShift e = false ∧
    e.vkCode ≠ VK_LCONTROL ∧ e.vkCode ≠ VK_LMENU ∧ e.vkCode ≠ VK_LWIN

/-- The matching release of the physical right-mod3 key. -/
def isMod3RUp (st : Settings) (e : KeyEvent) : Prop :=
  e.code = HC_ACTION ∧ isKeyUpEvent e = true ∧ e.flags &&& LLKHF_INJECTED = 0 ∧
    e.scanCode = st.scanCodeMod3R ∧ isShift e = false

/-- Invariant tying the lock flags to their enable settings: a lock can only
be armed while its setting allows it.  It holds in the initial state and is
preserved by every hook invocation, because each lock is toggled only under
its enable flag (main.cpp lines 606–612, 618–624, 659–661, 672–674). -/
def lockInv (st : Settings) (s : State) : Prop :=
  (st.capsLockEnabled = false → s.capsLockActive = false) ∧
    (st.shiftLockEnabled = false → s.shiftLockActive = false)

/-- The guard chain of `keyevent` that leads to the unchecked table lookup
`mapScanCodeToChar(level, keyInfo.scanCode)` at main.cpp lines 822–823:
the event is a non-injected key-down under `HC_ACTION`, is not the bypass
combo, bypass mode is off, the event is not one of the identity-swapped
modifier keys and not a shift/mod3/mod4 key, no level special-case handler
consumed it, the virtual key is not on the numeric keypad, and the
qwertz-shortcut pass-through does not apply.  No condition on this path
validates `scanCode` against `MAPPING_LEN`. -/
def reachesTableLookup (st : Settings) (ly : Layout) (os : Nat → Int) (s : State)
    (e : KeyEvent) : Bool :=
  let level := computeLevel st s
  e.code == HC_ACTION && isKeyDownEvent e
    && (e.flags &&& LLKHF_INJECTED == 0)
    && !(s.shiftPressed && e.scanCode == 69)
    && !s.bypassMode
    && !(e.vkCode == VK_LCONTROL && e.scanCode == 29)
    && !(e.vkCode == VK_LMENU) && !(e.vkCode == VK_LWIN)
    && !isShift e && !(isMod3 st e) && !(isMod4 st e)
    && (if level = Level.l2 then (handleLayer2SpecialCases os s e).isNone else true)
    && (if level = Level.l3 then (handleLayer3SpecialCases ly os s e).isNone else true)
    && (if level = Level.l4 then (handleLayer4SpecialCases ly os s e).isNone else true)
    && !(0x60 ≤ e.vkCode && e.vkCode ≤ 0x6f)
    && !(st.qwertzForShortcuts && isSystemKeyPressed s)

/-! ## C1: level resolution matches the documented priority table -/

/-- Modelled from the spec (§4.2): the documented priority table for level
resolution, first match wins, written with explicit XOR as in the spec.
This is the spec-side definition to be compared with `computeLevel`, which
is transcribed from the source. -/
def specLevelTable (ext sh m3 m4 shl l4l : Bool) : Level :=
  if ext && (xor sh shl) && m3 then .l5
  else if ext && m3 && (xor m4 l4l) then .l6
  else if xor m4 l4l then .l4
  else if m3 then .l3
  else if xor sh shl then .l2
  else .l1

/-- C1: on every key-down the active level is a pure function of
`shiftPressed`, `mod3Pressed`, `mod4Pressed`, `shiftLockActive`,
`level4LockActive` and `supportLevels5and6`, equal to the spec's priority
table (level 5, else 6, else 4, else 3, else 2, else 1) on all 32 boolean
combinations with the setting both on and off; being a total function into
`Level`, exactly one level results in each case. -/
theorem computeLevel_eq_specLevelTable (st : Settings) (s : State) :
    computeLevel st s =
      specLevelTable st.supportLevels5and6 s.shiftPressed s.mod3Pressed s.mod4Pressed
        s.shiftLockActive s.level4LockActive := by
  unfold computeLevel specLevelTable
  cases h1 : st.supportLevels5and6 <;> cases h2 : s.shiftPressed <;>
    cases h3 : s.mod3Pressed <;> cases h4 : s.mod4Pressed <;>
    cases h5 : s.shiftLockActive <;> cases h6 : s.level4LockActive <;> simp

/-! ## C4: injected events always pass through -/

/-- C4: every event whose flags contain `LLKHF_INJECTED` is passed through
unchanged — no state update, no synthesized output — regardless of bypass
mode, modifier state, or settings. -/
theorem injected_always_passthrough (st : Settings) (ly : Layout) (os : Nat → Int)
    (s : State) (e : KeyEvent) (h : e.flags &&& LLKHF_INJECTED ≠ 0) :
    keyevent st ly os s e = (s, [], .callNext) := by
  simp only [keyevent]
  split_ifs <;> simp_all

theorem injected_always_passthrough_witness :
    keyevent {} (buildLayout {}) (fun _ => -1) { initState with bypassMode := true }
        { wparam := WM_KEYDOWN, scanCode := 30, vkCode := 0x41, flags := LLKHF_INJECTED } =
      ({ initState with bypassMode := true }, [], .callNext) :=
  injected_always_passthrough _ _ _ _ _ (by decide)

/-! ## C9: buildLayout is deterministic -/

/-- C9: `buildLayout` is a pure deterministic function of the settings:
two invocations on equal settings produce layouts whose six level tables,
`is_kou_or_vue` flag and level-4 action table are all equal. -/
theorem buildLayout_deterministic (s t : Settings) (h : s = t) :
    (∀ lv : Level, (buildLayout s).atLevel lv = (buildLayout t).atLevel lv) ∧
      (buildLayout s).is_kou_or_vue = (buildLayout t).is_kou_or_vue ∧
      (buildLayout s).level4_specials = (buildLayout t).level4_specials := by
  subst h
  exact ⟨fun _ => rfl, rfl, rfl⟩

theorem buildLayout_deterministic_witness :
    (∀ lv : Level, (buildLayout {}).atLevel lv = (buildLayout {}).atLevel lv) ∧
      (buildLayout {}).is_kou_or_vue = (buildLayout {}).is_kou_or_vue ∧
      (buildLayout {}).level4_specials = (buildLayout {}).level4_specials :=
  buildLayout_deterministic {} {} rfl

/-! ## C5: bypass mode -/

/-- A non-injected key-down of scan code 69 while `shiftPressed` is set
flips the bypass flag and swallows the event (main.cpp lines 591–594). -/
theorem keyevent_combo_toggles (st : Settings) (ly : Layout) (os : Nat → Int)
    (s : State) (e : KeyEvent) (hc : e.code = HC_ACTION)
    (hd : isKeyDownEvent e = true) (hinj : e.flags &&& LLKHF_INJECTED = 0)
    (hsp : s.shiftPressed = true) (hsc : e.scanCode = 69) :
    keyevent st ly os s e = (toggleBypassMode s, [], .block) := by
  unfold isKeyDownEvent at hd
  simp only [keyevent]
  simp [hc, hd, hinj, hsp, hsc]

/-- C5: the shift+pause combo (key-down of scan code 69 with a shift key
held) flips the bypass flag and is swallowed; while bypass is set every
other event (in particular the subsequent shift release and every letter
key-down) passes through unchanged with no state update; performing the
gesture twice restores the state exactly. -/
theorem bypass_mode_spec :
    (∀ (st : Settings) (ly : Layout) (os : Nat → Int) (s : State) (e : KeyEvent),
      e.code = HC_ACTION → isKeyDownEvent e = true → e.flags &&& LLKHF_INJECTED = 0 →
      s.shiftPressed = true → e.scanCode = 69 →
      keyevent st ly os s e = (toggleBypassMode s, [], .block)) ∧
    (∀ (st : Settings) (ly : Layout) (os : Nat → Int) (s : State) (e : KeyEvent),
      s.bypassMode = true →
      ¬(isKeyDownEvent e = true ∧ s.shiftPressed = true ∧ e.scanCode = 69 ∧
        e.flags &&& LLKHF_INJECTED = 0) →
      keyevent st ly os s e = (s, [], .callNext)) ∧
    (∀ (st : Settings) (ly : Layout) (os : Nat → Int) (s : State) (e : KeyEvent),
      e.code = HC_ACTION → isKeyDownEvent e = true → e.flags &&& LLKHF_INJECTED = 0 →
      s.shiftPressed = true → e.scanCode = 69 →
      stepState st ly os (stepState st ly os s e) e = s) := by
  refine ⟨fun st ly os s e hc hd hinj hsp hsc =>
    keyevent_combo_toggles st ly os s e hc hd hinj hsp hsc, ?_, ?_⟩
  · intro st ly os s e hb hne
    simp only [keyevent]
    split_ifs with h1 h2 h3 h4
    all_goals try rfl
    exfalso
    apply hne
    simp only [Bool.and_eq_true, beq_iff_eq] at h4
    obtain ⟨⟨hda, hsp⟩, hsc⟩ := h4
    exact ⟨hda, hsp, hsc, by simpa using h3⟩
  · intro st ly os s e hc hd hinj hsp hsc
    have h1 := keyevent_combo_toggles st ly os s e hc hd hinj hsp hsc
    have h2 := keyevent_combo_toggles st ly os (toggleBypassMode s) e hc hd hinj
      (by simpa [toggleBypassMode] using hsp) hsc
    unfold stepState
    rw [h1]
    simp only
    rw [h2]
    simp [toggleBypassMode, Bool.not_not]

theorem bypass_mode_spec_witness :
    keyevent {} (buildLayout {}) (fun _ => -1) { initState with bypassMode := true }
        { wparam := WM_KEYUP, scanCode := 30, vkCode := 0x41 } =
      ({ initState with bypassMode := true }, [], .callNext) :=
  bypass_mode_spec.2.1 {} (buildLayout {}) (fun _ => -1) _ _ rfl (by decide)

/-! ## List-length facts about the layout tables -/

theorem fillAt_length (off : Nat) (cs m : List Nat) : (fillAt off cs m).length = m.length := by
  induction cs generalizing off m with
  | nil => rfl
  | cons c rest ih => rw [fillAt, ih, List.length_set]

theorem emptyMapping_length : emptyMapping.length = MAPPING_LEN := by
  simp [emptyMapping]

theorem mapLevelsLetters_length (base out newChars : List Nat) :
    (mapLevelsLetters base out newChars).length = min base.length out.length := by
  simp [mapLevelsLetters]

theorem commonLevel2_length : commonLevel2.length = MAPPING_LEN := by decide

theorem variantTables_level1_length (st : Settings) :
    (variantTables st).1.length = MAPPING_LEN := by
  unfold variantTables
  split_ifs <;> simp [fillAt_length, commonLevel1, emptyMapping_length]

theorem variantTables_level3_length (st : Settings) :
    (variantTables st).2.1.length = MAPPING_LEN := by
  unfold variantTables
  split_ifs <;> simp [fillAt_length, commonLevel3, emptyMapping_length]

theorem variantTables_level4_length (st : Settings) :
    (variantTables st).2.2.1.length = MAPPING_LEN := by
  unfold variantTables
  split_ifs <;> simp [fillAt_length, commonLevel4, emptyMapping_length]

theorem getD_set_self (l : List Nat) (i a : Nat) (h : i < l.length) :
    (l.set i a).getD i 0 = a := by
  simp [List.getD_eq_getElem?_getD, List.getElem?_set, h]

theorem getD_set_other (l : List Nat) {i j : Nat} (a : Nat) (hij : i ≠ j) :
    (l.set i a).getD j 0 = l.getD j 0 := by
  simp [List.getD_eq_getElem?_getD, List.getElem?_set, hij]

/-- Copying slot 40 into slot 43 makes the two slots agree. -/
theorem copy43_agrees (m : List Nat) (h : 43 < m.length) :
    (m.set 43 (m.getD 40 0)).getD 43 0 = (m.set 43 (m.getD 40 0)).getD 40 0 := by
  rw [getD_set_self _ _ _ h, getD_set_other _ _ (by decide : (43 : Nat) ≠ 40)]

theorem buildLayout_atLevel_length (st : Settings) (lv : Level) :
    ((buildLayout st).atLevel lv).length = MAPPING_LEN := by
  cases lv <;>
  · simp only [buildLayout, Layout.atLevel]
    split_ifs <;>
      simp [List.length_set, fillAt_length, mapLevelsLetters_length,
        variantTables_level1_length, variantTables_level3_length,
        variantTables_level4_length, emptyMapping_length, commonLevel2_length]

/-! ## C6: quoteAsMod3R copies the quote column -/

/-- C6: for every settings record with `quoteAsMod3R = true`, the layout's
table entry at the backslash/hash scan code (43) equals the entry at the
ä/quote scan code (40) on each of the six levels. -/
theorem quote_column_copied (st : Settings) (hq : st.quoteAsMod3R = true) (lv : Level) :
    ((buildLayout st).atLevel lv).getD 43 0 = ((buildLayout st).atLevel lv).getD 40 0 := by
  cases lv
  case l1 =>
    simp only [buildLayout, Layout.atLevel, hq, if_true]
    exact copy43_agrees _ (by rw [variantTables_level1_length]; decide)
  case l2 =>
    simp only [buildLayout, Layout.atLevel, hq, if_true]
    rw [getD_set_other _ _ (by decide : (8 : Nat) ≠ 43),
      getD_set_other _ _ (by decide : (8 : Nat) ≠ 40)]
    exact copy43_agrees _
      (by rw [mapLevelsLetters_length, variantTables_level1_length, commonLevel2_length]; decide)
  case l3 =>
    simp only [buildLayout, Layout.atLevel, hq, if_true]
    exact copy43_agrees _ (by rw [variantTables_level3_length]; decide)
  case l4 =>
    simp only [buildLayout, Layout.atLevel, hq, if_true]
    exact copy43_agrees _ (by rw [variantTables_level4_length]; decide)
  case l5 =>
    simp only [buildLayout, Layout.atLevel, hq, if_true]
    exact copy43_agrees _
      (by simp [List.length_set, fillAt_length, mapLevelsLetters_length,
            variantTables_level1_length, emptyMapping_length, MAPPING_LEN])
  case l6 =>
    simp only [buildLayout, Layout.atLevel, hq, if_true]
    exact copy43_agrees _
      (by simp [List.length_set, fillAt_length, mapLevelsLetters_length,
            variantTables_level1_length, emptyMapping_length, MAPPING_LEN])

theorem quote_column_copied_witness :
    ((buildLayout { quoteAsMod3R := true }).atLevel .l3).getD 43 0 =
      ((buildLayout { quoteAsMod3R := true }).atLevel .l3).getD 40 0 :=
  quote_column_copied { quoteAsMod3R := true } rfl .l3

/-! ## C7: the level-4 action table and its variant-dependent ordering -/

/-- C7: `buildLayout` populates the level-4 action table as
`mkSpecials is_kou_or_vue` for every settings record; the
next-page/backspace/delete group (slots 17–20) and the
insert/tab/return/escape group (slots 44–47) are ordered differently for
the kou/vou family than for all other variants, while every remaining slot
is identical across variants; the populated slots are the fixed set
{16–20, 30–34, 44–47, 57}. -/
theorem level4_specials_spec :
    (∀ st : Settings, (buildLayout st).level4_specials =
        mkSpecials (buildLayout st).is_kou_or_vue) ∧
    ([17, 18, 19, 20].map (fun i => (mkSpecials true).getD i 0) =
        [VK_NEXT, VK_UP, VK_BACK, VK_DELETE] ∧
      [17, 18, 19, 20].map (fun i => (mkSpecials false).getD i 0) =
        [VK_BACK, VK_UP, VK_DELETE, VK_NEXT] ∧
      [44, 45, 46, 47].map (fun i => (mkSpecials true).getD i 0) =
        [VK_INSERT, VK_TAB, VK_RETURN, VK_ESCAPE] ∧
      [44, 45, 46, 47].map (fun i => (mkSpecials false).getD i 0) =
        [VK_ESCAPE, VK_TAB, VK_INSERT, VK_RETURN]) ∧
    (∀ i : Fin MAPPING_LEN,
      i.1 ∉ ([17, 19, 20, 44, 46, 47] : List Nat) →
      (mkSpecials true).getD i.1 0 = (mkSpecials false).getD i.1 0) ∧
    (∀ i : Fin MAPPING_LEN,
      ((mkSpecials false).getD i.1 0 ≠ 0 ↔
        i.1 ∈ ([16, 17, 18, 19, 20, 30, 31, 32, 33, 34, 44, 45, 46, 47, 57] : List Nat)) ∧
      ((mkSpecials true).getD i.1 0 ≠ 0 ↔
        i.1 ∈ ([16, 17, 18, 19, 20, 30, 31, 32, 33, 34, 44, 45, 46, 47, 57] : List Nat))) := by
  exact ⟨fun st => rfl, by decide, by decide, by decide⟩

theorem level4_specials_spec_witness :
    (buildLayout { layout := "kou" }).level4_specials =
      mkSpecials (buildLayout { layout := "kou" }).is_kou_or_vue :=
  level4_specials_spec.1 { layout := "kou" }

/-! ## C8: the Unicode fallback of the emitter -/

/-- C8: `sendChar` synthesizes a direct Unicode character input event
exactly when the reverse layout lookup finds no combination, or one of the
shift/caps/level-4 locks is active, or the original key's virtual key code
is a digit-row key (0x30–0x39); in particular a failed reverse lookup is
always recovered locally by the Unicode fallback and never surfaced as an
error. -/
theorem sendChar_unicode_fallback (os : Nat → Int) (s : State) (key : Nat) (ki : KeyEvent) :
    (os key = -1 → sendChar os s key ki = sendUnicodeChar key) ∧
    (sendChar os s key ki = sendUnicodeChar key ↔
      (os key = -1 ∨ s.shiftLockActive = true ∨ s.capsLockActive = true ∨
        s.level4LockActive = true ∨ (0x30 ≤ ki.vkCode ∧ ki.vkCode ≤ 0x39))) := by
  constructor
  · intro h
    unfold sendChar
    simp [h]
  · simp only [sendChar, sendUnicodeChar]
    by_cases hcond : (os key == -1 || s.shiftLockActive || s.capsLockActive
        || s.level4LockActive || (0x30 ≤ ki.vkCode && ki.vkCode ≤ 0x39)) = true
    · rw [if_pos hcond]
      simp only [Bool.or_eq_true, beq_iff_eq, Bool.and_eq_true, decide_eq_true_eq] at hcond
      simp only [eq_self_iff_true, true_iff]
      tauto
    · rw [if_neg hcond]
      have hc : ¬(os key = -1 ∨ s.shiftLockActive = true ∨ s.capsLockActive = true ∨
          s.level4LockActive = true ∨ (0x30 ≤ ki.vkCode ∧ ki.vkCode ≤ 0x39)) := by
        intro hd
        apply hcond
        simp only [Bool.or_eq_true, beq_iff_eq, Bool.and_eq_true, decide_eq_true_eq]
        tauto
      simp only [hc, iff_false]
      intro heq
      have hmem : SynthEvent.keybd ((os key).toNat) ki.scanCode ki.flags ki.extraInfo ∈
          [SynthEvent.unicode key] := by
        rw [← heq]
        simp
      simp at hmem

theorem sendChar_unicode_fallback_witness :
    sendChar (fun _ => -1) initState 0x75 { wparam := WM_KEYDOWN, scanCode := 22, vkCode := 0x5a }
      = sendUnicodeChar 0x75 :=
  (sendChar_unicode_fallback (fun _ => -1) initState 0x75
    { wparam := WM_KEYDOWN, scanCode := 22, vkCode := 0x5a }).1 rfl

/-! ## Helper lemmas about the classifier's state transitions -/

theorem not_down_of_up (e : KeyEvent) (h : isKeyUpEvent e = true) :
    isKeyDownEvent e = false := by
  simp only [isKeyUpEvent, WM_SYSKEYUP, WM_KEYUP, Bool.or_eq_true, beq_iff_eq] at h
  simp only [isKeyDownEvent, WM_SYSKEYDOWN, WM_KEYDOWN, Bool.or_eq_false_iff,
    beq_eq_false_iff_ne, ne_eq]
  omega

theorem not_up_of_down (e : KeyEvent) (h : isKeyDownEvent e = true) :
    isKeyUpEvent e = false := by
  simp only [isKeyDownEvent, WM_SYSKEYDOWN, WM_KEYDOWN, Bool.or_eq_true, beq_iff_eq] at h
  simp only [isKeyUpEvent, WM_SYSKEYUP, WM_KEYUP, Bool.or_eq_false_iff,
    beq_eq_false_iff_ne, ne_eq]
  omega

set_option maxHeartbeats 1000000 in
/-- Key-up handling of any key other than mod3R leaves the mod3R sole-key
flag unchanged. -/
theorem keyeventUp_armedR (st : Settings) (s : State) (e : KeyEvent)
    (hsc : e.scanCode ≠ st.scanCodeMod3R) :
    (keyeventUp st s e).1.level3modRightAndNoOtherKeyPressed =
      s.level3modRightAndNoOtherKeyPressed := by
  simp only [keyeventUp]
  split_ifs <;> first | rfl | simp_all

set_option maxHeartbeats 1000000 in
/-- The key-down dispatch tail arms the mod3R sole-key flag only for the
mod3R scan code itself. -/
theorem keyDownTail_armedR (st : Settings) (ly : Layout) (os : Nat → Int) (s : State)
    (e : KeyEvent) (hsc : e.scanCode ≠ st.scanCodeMod3R) :
    (keyDownTail st ly os s e).1.level3modRightAndNoOtherKeyPressed =
      s.level3modRightAndNoOtherKeyPressed := by
  simp only [keyDownTail]
  split_ifs <;> (repeat' split) <;> first | rfl | simp_all

set_option maxHeartbeats 1000000 in
/-- A key-down of any key other than mod3R leaves the mod3R sole-key flag
cleared. -/
theorem keyeventDown_armedR (st : Settings) (ly : Layout) (os : Nat → Int) (s : State)
    (e : KeyEvent) (hsc : e.scanCode ≠ st.scanCodeMod3R) :
    (keyeventDown st ly os s e).1.level3modRightAndNoOtherKeyPressed = false := by
  simp only [keyeventDown]
  split_ifs <;> first | rfl | (rw [keyDownTail_armedR st ly os _ e hsc])

set_option maxHeartbeats 1000000 in
/-- Key-up handling never changes the bypass flag. -/
theorem keyeventUp_bypass (st : Settings) (s : State) (e : KeyEvent) :
    (keyeventUp st s e).1.bypassMode = s.bypassMode := by
  simp only [keyeventUp]
  split_ifs <;> (repeat' split) <;> rfl

set_option maxHeartbeats 1000000 in
/-- The key-down dispatch tail never changes the bypass flag. -/
theorem keyDownTail_bypass (st : Settings) (ly : Layout) (os : Nat → Int) (s : State)
    (e : KeyEvent) :
    (keyDownTail st ly os s e).1.bypassMode = s.bypassMode := by
  simp only [keyDownTail]
  split_ifs <;> (repeat' split) <;> rfl

set_option maxHeartbeats 1000000 in
/-- Key-down handling never changes the bypass flag. -/
theorem keyeventDown_bypass (st : Settings) (ly : Layout) (os : Nat → Int) (s : State)
    (e : KeyEvent) :
    (keyeventDown st ly os s e).1.bypassMode = s.bypassMode := by
  simp only [keyeventDown]
  split_ifs <;> first | rfl | (rw [keyDownTail_bypass])

set_option maxHeartbeats 1000000 in
/-- A cleared mod3R sole-key flag stays cleared across any event whose scan
code is not the mod3R scan code. -/
theorem stepState_armedR_false (st : Settings) (ly : Layout) (os : Nat → Int) (s : State)
    (e : KeyEvent) (hsc : e.scanCode ≠ st.scanCodeMod3R)
    (h : s.level3modRightAndNoOtherKeyPressed = false) :
    (stepState st ly os s e).level3modRightAndNoOtherKeyPressed = false := by
  simp only [stepState, keyevent]
  split_ifs <;>
    first
      | exact h
      | simpa [toggleBypassMode] using h
      | exact (keyeventUp_armedR st s e hsc).trans h
      | exact keyeventDown_armedR st ly os s e hsc

set_option maxHeartbeats 1000000 in
/-- Events that are not key-downs leave the mod3R sole-key flag unchanged
(when they do not release mod3R itself). -/
theorem stepState_armedR_keep (st : Settings) (ly : Layout) (os : Nat → Int) (s : State)
    (e : KeyEvent) (hsc : e.scanCode ≠ st.scanCodeMod3R)
    (hnd : isKeyDownEvent e = false) :
    (stepState st ly os s e).level3modRightAndNoOtherKeyPressed =
      s.level3modRightAndNoOtherKeyPressed := by
  simp only [stepState, keyevent]
  split_ifs <;>
    first
      | rfl
      | exact keyeventUp_armedR st s e hsc
      | simp_all [isKeyDownEvent, toggleBypassMode]

set_option maxHeartbeats 1000000 in
/-- The bypass flag changes only on a key-down of scan code 69. -/
theorem stepState_bypass (st : Settings) (ly : Layout) (os : Nat → Int) (s : State)
    (e : KeyEvent) (h : e.scanCode ≠ 69 ∨ isKeyDownEvent e = false) :
    (stepState st ly os s e).bypassMode = s.bypassMode := by
  simp only [stepState, keyevent]
  split_ifs <;>
    first
      | rfl
      | exact keyeventUp_bypass st s e
      | exact keyeventDown_bypass st ly os s e
      | (rcases h with h | h <;> simp_all [isKeyDownEvent])

theorem runState_append (st : Settings) (ly : Layout) (os : Nat → Int) (as bs : List KeyEvent) :
    ∀ s, runState st ly os s (as ++ bs) = runState st ly os (runState st ly os s as) bs := by
  induction as with
  | nil => intro s; rfl
  | cons a tl ih => intro s; simp only [List.cons_append, runState]; exact ih _

theorem runState_armedR_false (st : Settings) (ly : Layout) (os : Nat → Int)
    (es : List KeyEvent) :
    ∀ s : State, (∀ m ∈ es, m.scanCode ≠ st.scanCodeMod3R) →
      s.level3modRightAndNoOtherKeyPressed = false →
      (runState st ly os s es).level3modRightAndNoOtherKeyPressed = false := by
  induction es with
  | nil => intro s _ h; exact h
  | cons m ms ih =>
    intro s hm h
    simp only [runState]
    exact ih _ (fun x hx => hm x (List.mem_cons_of_mem m hx))
      (stepState_armedR_false st ly os s m (hm m (List.mem_cons_self m ms)) h)

theorem runState_armedR_keep (st : Settings) (ly : Layout) (os : Nat → Int)
    (es : List KeyEvent) :
    ∀ s : State, (∀ m ∈ es, m.scanCode ≠ st.scanCodeMod3R ∧ isKeyDownEvent m = false) →
      (runState st ly os s es).level3modRightAndNoOtherKeyPressed =
        s.level3modRightAndNoOtherKeyPressed := by
  induction es with
  | nil => intro s _; rfl
  | cons m ms ih =>
    intro s hm
    simp only [runState]
    have h1 := hm m (List.mem_cons_self m ms)
    exact (ih _ (fun x hx => hm x (List.mem_cons_of_mem m hx))).trans
      (stepState_armedR_keep st ly os s m h1.1 h1.2)

theorem runState_bypass (st : Settings) (ly : Layout) (os : Nat → Int)
    (es : List KeyEvent) :
    ∀ s : State, (∀ m ∈ es, m.scanCode ≠ 69 ∨ isKeyDownEvent m = false) →
      (runState st ly os s es).bypassMode = s.bypassMode := by
  induction es with
  | nil => intro s _; rfl
  | cons m ms ih =>
    intro s hm
    simp only [runState]
    exact (ih _ (fun x hx => hm x (List.mem_cons_of_mem m hx))).trans
      (stepState_bypass st ly os s m (hm m (List.mem_cons_self m ms)))

set_option maxHeartbeats 1000000 in
/-- Pressing the right mod3 key (outside bypass mode) arms its sole-key
flag and leaves bypass off (main.cpp lines 785–790). -/
theorem press_mod3R_arms (st : Settings) (ly : Layout) (os : Nat → Int) (s : State)
    (p : KeyEvent) (hp : isMod3RDown st p) (h69 : st.scanCodeMod3R ≠ 69)
    (hbp : s.bypassMode = false) :
    (stepState st ly os s p).level3modRightAndNoOtherKeyPressed = true ∧
      (stepState st ly os s p).bypassMode = false := by
  obtain ⟨hc, hd, hinj, hsc, hsh, hv1, hv2, hv3⟩ := hp
  have hup := not_up_of_down p hd
  constructor
  · have hd' : (p.wparam == WM_SYSKEYDOWN || p.wparam == WM_KEYDOWN) = true := hd
    have hup' : (p.wparam == WM_SYSKEYUP || p.wparam == WM_KEYUP) = false := hup
    have hsc' : (p.scanCode == st.scanCodeMod3R) = true := by simp [hsc]
    have h69' : (p.scanCode == 69) = false := by rw [hsc]; exact beq_eq_false_iff_ne.mpr h69
    have hv1' : (p.vkCode == VK_LCONTROL) = false := beq_eq_false_iff_ne.mpr hv1
    have hv2' : (p.vkCode == VK_LMENU) = false := beq_eq_false_iff_ne.mpr hv2
    have hv3' : (p.vkCode == VK_LWIN) = false := beq_eq_false_iff_ne.mpr hv3
    simp only [stepState, keyevent, keyeventDown, keyDownTail, isMod3]
    simp [hc, hd', hup', hsc', h69', hv1', hv2', hv3', hsh, hinj, hbp]
    split_ifs <;> rfl
  · rw [stepState_bypass st ly os s p (Or.inl (by rw [hsc]; exact h69))]
    exact hbp

set_option maxHeartbeats 1000000 in
/-- Any non-injected key-down processed while bypass is off — other than a
mod3R key-down and the bypass toggle combo — clears the mod3R sole-key flag
(main.cpp lines 722–724). -/
theorem keydown_disarms (st : Settings) (ly : Layout) (os : Nat → Int) (s : State)
    (d : KeyEvent) (hd : isKeyDownEvent d = true) (hc : d.code = HC_ACTION)
    (hinj : d.flags &&& LLKHF_INJECTED = 0) (hbp : s.bypassMode = false)
    (h69 : d.scanCode ≠ 69) (hsc : d.scanCode ≠ st.scanCodeMod3R) :
    (stepState st ly os s d).level3modRightAndNoOtherKeyPressed = false := by
  have hup := not_up_of_down d hd
  have hd' : (d.wparam == WM_SYSKEYDOWN || d.wparam == WM_KEYDOWN) = true := hd
  have hup' : (d.wparam == WM_SYSKEYUP || d.wparam == WM_KEYUP) = false := hup
  have h69' : (d.scanCode == 69) = false := beq_eq_false_iff_ne.mpr h69
  simp only [stepState, keyevent]
  simp only [hc, hd', hup', h69', hinj, hbp, bne_self_eq_false, Bool.false_and,
    Bool.and_false, Bool.not_false, Bool.true_and, Bool.and_true, Bool.not_true,
    Bool.false_eq_true, if_false, if_true, Bool.false_or, Bool.or_false]
  exact keyeventDown_armedR st ly os s d hsc

set_option maxHeartbeats 1000000 in
/-- The tap path of the mod3R release (main.cpp lines 632–641): with
`mod3RAsReturn` enabled and the sole-key flag still armed, the release
emits the modifier key-up followed by a Return key-down, clears only the
mod3R press and sole-key flags, and swallows the event — in particular no
lock flag is toggled and `mod3Pressed` is not recomputed. -/
theorem release_mod3R_tap (st : Settings) (ly : Layout) (os : Nat → Int) (s : State)
    (r : KeyEvent) (hr : isMod3RUp st r) (hbp : s.bypassMode = false)
    (hret : st.mod3RAsReturn = true)
    (harm : s.level3modRightAndNoOtherKeyPressed = true) :
    keyevent st ly os s r =
      ({ s with level3modRightPressed := false, level3modRightAndNoOtherKeyPressed := false },
       [SynthEvent.keybd r.vkCode 0 KEYEVENTF_KEYUP 0,
        SynthEvent.keybd VK_RETURN 0 0x01 0], .block) := by
  obtain ⟨hc, hu, hinj, hsc, hsh⟩ := hr
  have hnd := not_down_of_up r hu
  have hu' : (r.wparam == WM_SYSKEYUP || r.wparam == WM_KEYUP) = true := hu
  have hnd' : (r.wparam == WM_SYSKEYDOWN || r.wparam == WM_KEYDOWN) = false := hnd
  have hsc' : (r.scanCode == st.scanCodeMod3R) = true := by simp [hsc]
  simp only [keyevent, keyeventUp, isMod3]
  simp [hc, hu', hnd', hsc', hsh, hbp, hret, harm, hinj]

set_option maxHeartbeats 1000000 in
/-- The mod3R release with the sole-key flag cleared emits nothing. -/
theorem release_mod3R_no_return (st : Settings) (ly : Layout) (os : Nat → Int) (s : State)
    (r : KeyEvent) (hr : isMod3RUp st r) (hbp : s.bypassMode = false)
    (harm : s.level3modRightAndNoOtherKeyPressed = false) :
    (keyevent st ly os s r).2.1 = [] := by
  obtain ⟨hc, hu, hinj, hsc, hsh⟩ := hr
  have hnd := not_down_of_up r hu
  have hu' : (r.wparam == WM_SYSKEYUP || r.wparam == WM_KEYUP) = true := hu
  have hnd' : (r.wparam == WM_SYSKEYDOWN || r.wparam == WM_KEYDOWN) = false := hnd
  have hsc' : (r.scanCode == st.scanCodeMod3R) = true := by simp [hsc]
  simp only [keyevent, keyeventUp, isMod3]
  simp [hc, hu', hnd', hsc', hsh, hbp, harm, hinj]

/-! ## C2: tap-as-Return for the right mod3 key -/

/-- C2 (amended): with `mod3RAsReturn` enabled, pressing the right mod3 key
and releasing it with no other key-down in between makes the release emit
the modifier key-up followed by a Return key event, swallow the event, and
skip the normal modifier-release bookkeeping (no lock flag is toggled and
`mod3Pressed` is not recomputed — only the mod3R press and sole-key flags
are cleared); and whenever some other non-injected key-down is processed
between press and release while bypass mode is off, the release does NOT
emit Return — provided the events in between touch neither the mod3R scan
code nor the bypass-combo scan code 69.  (The proviso is forced by the
counterexample `mod3R_tap_counterexample`: a shift+pause key-down is
handled before the sole-key flags are cleared, so it does not disarm the
tap.) -/
theorem mod3R_tap_as_return :
    (∀ (st : Settings) (ly : Layout) (os : Nat → Int) (s : State) (p : KeyEvent)
        (mids : List KeyEvent) (r : KeyEvent),
      st.mod3RAsReturn = true → st.scanCodeMod3R ≠ 69 →
      isMod3RDown st p → isMod3RUp st r → s.bypassMode = false →
      (∀ m ∈ mids, m.scanCode ≠ st.scanCodeMod3R ∧ isKeyDownEvent m = false) →
      keyevent st ly os (runState st ly os (stepState st ly os s p) mids) r =
        ({ runState st ly os (stepState st ly os s p) mids with
            level3modRightPressed := false, level3modRightAndNoOtherKeyPressed := false },
         [SynthEvent.keybd r.vkCode 0 KEYEVENTF_KEYUP 0,
          SynthEvent.keybd VK_RETURN 0 0x01 0], .block)) ∧
    (∀ (st : Settings) (ly : Layout) (os : Nat → Int) (s : State) (p : KeyEvent)
        (mids : List KeyEvent) (r : KeyEvent),
      st.scanCodeMod3R ≠ 69 →
      isMod3RDown st p → isMod3RUp st r → s.bypassMode = false →
      (∀ m ∈ mids, m.scanCode ≠ st.scanCodeMod3R ∧ m.scanCode ≠ 69) →
      (∃ d ∈ mids, isKeyDownEvent d = true ∧ d.code = HC_ACTION ∧
        d.flags &&& LLKHF_INJECTED = 0) →
      SynthEvent.keybd VK_RETURN 0 0x01 0 ∉
        (keyevent st ly os (runState st ly os (stepState st ly os s p) mids) r).2.1) := by
  constructor
  · intro st ly os s p mids r hret h69 hp hr hbp hm
    have hpress := press_mod3R_arms st ly os s p hp h69 hbp
    have harm2 : (runState st ly os (stepState st ly os s p) mids).level3modRightAndNoOtherKeyPressed = true :=
      (runState_armedR_keep st ly os mids _ hm).trans hpress.1
    have hbp2 : (runState st ly os (stepState st ly os s p) mids).bypassMode = false :=
      (runState_bypass st ly os mids _ (fun m hmm => Or.inr (hm m hmm).2)).trans hpress.2
    exact release_mod3R_tap st ly os _ r hr hbp2 hret harm2
  · intro st ly os s p mids r h69 hp hr hbp hm hd
    obtain ⟨d, hdmem, hddown, hdcode, hdinj⟩ := hd
    obtain ⟨t1, t2, rfl⟩ := List.append_of_mem hdmem
    have hd69 : d.scanCode ≠ 69 := (hm d hdmem).2
    have hdsc : d.scanCode ≠ st.scanCodeMod3R := (hm d hdmem).1
    have hbp1 : (stepState st ly os s p).bypassMode = false :=
      (press_mod3R_arms st ly os s p hp h69 hbp).2
    have hbpA : (runState st ly os (stepState st ly os s p) t1).bypassMode = false :=
      (runState_bypass st ly os t1 _
        (fun m hmm => Or.inl (hm m (List.mem_append_left _ hmm)).2)).trans hbp1
    have hdisarm :
        (stepState st ly os (runState st ly os (stepState st ly os s p) t1) d).level3modRightAndNoOtherKeyPressed = false :=
      keydown_disarms st ly os _ d hddown hdcode hdinj hbpA hd69 hdsc
    have hbpB :
        (stepState st ly os (runState st ly os (stepState st ly os s p) t1) d).bypassMode = false :=
      (stepState_bypass st ly os _ d (Or.inl hd69)).trans hbpA
    have harm3 :
        (runState st ly os
          (stepState st ly os (runState st ly os (stepState st ly os s p) t1) d) t2).level3modRightAndNoOtherKeyPressed = false :=
      runState_armedR_false st ly os t2 _
        (fun m hmm => (hm m (List.mem_append_right _ (List.mem_cons_of_mem d hmm))).1) hdisarm
    have hbp3 :
        (runState st ly os
          (stepState st ly os (runState st ly os (stepState st ly os s p) t1) d) t2).bypassMode = false :=
      (runState_bypass st ly os t2 _
        (fun m hmm => Or.inl (hm m (List.mem_append_right _ (List.mem_cons_of_mem d hmm))).2)).trans hbpB
    rw [runState_append]
    simp only [runState]
    rw [release_mod3R_no_return st ly os _ r hr hbp3 harm3]
    exact List.not_mem_nil _

/-- C2 counterexample: with `mod3RAsReturn` enabled and a shift key held,
the sequence mod3R-down, pause-down (toggles bypass on), pause-down
(toggles bypass off), mod3R-up ends with the release emitting Return even
though other non-injected key-downs (the two Pause key-downs, scan code 69)
occurred between press and release: the bypass-combo check at main.cpp
line 591 runs before the sole-key flags are cleared at lines 722–724, so
those key-downs never disarm the tap. -/
theorem mod3R_tap_counterexample :
    SynthEvent.keybd VK_RETURN 0 0x01 0 ∈
      (keyevent (({ mod3RAsReturn := true } : Settings).sanitize)
        (buildLayout (({ mod3RAsReturn := true } : Settings).sanitize)) (fun _ => -1)
        (runState (({ mod3RAsReturn := true } : Settings).sanitize)
          (buildLayout (({ mod3RAsReturn := true } : Settings).sanitize)) (fun _ => -1)
          { initState with shiftPressed := true }
          [{ wparam := WM_KEYDOWN, scanCode := 43, vkCode := 0xbf },
           { wparam := WM_KEYDOWN, scanCode := 69, vkCode := 0x13 },
           { wparam := WM_KEYDOWN, scanCode := 69, vkCode := 0x13 }])
        { wparam := WM_KEYUP, scanCode := 43, vkCode := 0xbf }).2.1 ∧
    isKeyDownEvent { wparam := WM_KEYDOWN, scanCode := 69, vkCode := 0x13 } = true ∧
    ({ wparam := WM_KEYDOWN, scanCode := 69, vkCode := 0x13 } : KeyEvent).scanCode ≠ 43 ∧
    ({ wparam := WM_KEYDOWN, scanCode := 69, vkCode := 0x13 } : KeyEvent).flags
      &&& LLKHF_INJECTED = 0 := by
  refine ⟨?_, by decide, by decide, by decide⟩
  decide

theorem mod3R_tap_as_return_witness :
    keyevent ({ mod3RAsReturn := true } : Settings) (buildLayout {}) (fun _ => -1)
        (runState ({ mod3RAsReturn := true } : Settings) (buildLayout {}) (fun _ => -1)
          (stepState ({ mod3RAsReturn := true } : Settings) (buildLayout {}) (fun _ => -1)
            initState { wparam := WM_KEYDOWN, scanCode := 43, vkCode := 0xbf }) [])
        { wparam := WM_KEYUP, scanCode := 43, vkCode := 0xbf } =
      ({ runState ({ mod3RAsReturn := true } : Settings) (buildLayout {}) (fun _ => -1)
            (stepState ({ mod3RAsReturn := true } : Settings) (buildLayout {}) (fun _ => -1)
              initState { wparam := WM_KEYDOWN, scanCode := 43, vkCode := 0xbf }) [] with
          level3modRightPressed := false, level3modRightAndNoOtherKeyPressed := false },
       [SynthEvent.keybd ({ wparam := WM_KEYUP, scanCode := 43, vkCode := 0xbf } : KeyEvent).vkCode
          0 KEYEVENTF_KEYUP 0,
        SynthEvent.keybd VK_RETURN 0 0x01 0], .block) :=
  mod3R_tap_as_return.1 _ _ _ _ _ [] _ rfl (by decide)
    ⟨rfl, rfl, rfl, rfl, rfl, by decide, by decide, by decide⟩
    ⟨rfl, rfl, rfl, rfl, rfl⟩ rfl (by simp)

/-! ## Helper lemmas for the shift-lock / caps-lock claim -/

/-- Proves `Settings::sanitize` never leaves both locks enabled (main.cpp line 88). -/
theorem sanitize_locks_exclusive (s0 : Settings)
    (h : (s0.sanitize).capsLockEnabled = true) : (s0.sanitize).shiftLockEnabled = false := by
  simp only [Settings.sanitize] at h ⊢
  split_ifs at h ⊢ <;> simp_all

set_option maxHeartbeats 1000000 in
/-- Releasing the right shift key while the left one is held toggles
shift lock if enabled, else caps lock if enabled; the level-4 lock is
untouched (main.cpp lines 603–614). -/
theorem shiftR_release_toggle (st : Settings) (ly : Layout) (os : Nat → Int) (s : State)
    (e : KeyEvent) (hc : e.code = HC_ACTION) (hu : isKeyUpEvent e = true)
    (hinj : e.flags &&& LLKHF_INJECTED = 0) (hbp : s.bypassMode = false)
    (hvk : e.vkCode = VK_RSHIFT) (hheld : s.shiftLeftPressed = true) :
    (stepState st ly os s e).shiftLockActive =
        (if st.shiftLockEnabled = true then !s.shiftLockActive else s.shiftLockActive) ∧
      (stepState st ly os s e).capsLockActive =
        (if st.shiftLockEnabled = true then s.capsLockActive
         else if st.capsLockEnabled = true then !s.capsLockActive else s.capsLockActive) ∧
      (stepState st ly os s e).level4LockActive = s.level4LockActive := by
  have hnd := not_down_of_up e hu
  have hu' : (e.wparam == WM_SYSKEYUP || e.wparam == WM_KEYUP) = true := hu
  have hnd' : (e.wparam == WM_SYSKEYDOWN || e.wparam == WM_KEYDOWN) = false := hnd
  have hsh : isShift e = true := by simp [isShift, hvk]
  simp only [stepState, keyevent, keyeventUp]
  simp [hc, hu', hnd', hinj, hbp, hsh, hvk, hheld]
  cases st.shiftLockEnabled <;> cases st.capsLockEnabled <;> simp

set_option maxHeartbeats 1000000 in
/-- Releasing the left shift key (or `VK_SHIFT`) while the right one is
held toggles shift lock if enabled, else caps lock if enabled; the
level-4 lock is untouched (main.cpp lines 615–626). -/
theorem shiftL_release_toggle (st : Settings) (ly : Layout) (os : Nat → Int) (s : State)
    (e : KeyEvent) (hc : e.code = HC_ACTION) (hu : isKeyUpEvent e = true)
    (hinj : e.flags &&& LLKHF_INJECTED = 0) (hbp : s.bypassMode = false)
    (hsh : isShift e = true) (hvk : e.vkCode ≠ VK_RSHIFT)
    (hheld : s.shiftRightPressed = true) :
    (stepState st ly os s e).shiftLockActive =
        (if st.shiftLockEnabled = true then !s.shiftLockActive else s.shiftLockActive) ∧
      (stepState st ly os s e).capsLockActive =
        (if st.shiftLockEnabled = true then s.capsLockActive
         else if st.capsLockEnabled = true then !s.capsLockActive else s.capsLockActive) ∧
      (stepState st ly os s e).level4LockActive = s.level4LockActive := by
  have hnd := not_down_of_up e hu
  have hu' : (e.wparam == WM_SYSKEYUP || e.wparam == WM_KEYUP) = true := hu
  have hnd' : (e.wparam == WM_SYSKEYDOWN || e.wparam == WM_KEYDOWN) = false := hnd
  have hvk' : (e.vkCode == VK_RSHIFT) = false := beq_eq_false_iff_ne.mpr hvk
  simp only [stepState, keyevent, keyeventUp]
  simp [hc, hu', hnd', hinj, hbp, hsh, hvk', hheld]
  cases st.shiftLockEnabled <;> cases st.capsLockEnabled <;> simp

set_option maxHeartbeats 1000000 in
/-- The key-down dispatch tail never changes a lock flag. -/
theorem keyDownTail_locks (st : Settings) (ly : Layout) (os : Nat → Int) (s : State)
    (e : KeyEvent) :
    (keyDownTail st ly os s e).1.shiftLockActive = s.shiftLockActive ∧
      (keyDownTail st ly os s e).1.capsLockActive = s.capsLockActive ∧
      (keyDownTail st ly os s e).1.level4LockActive = s.level4LockActive := by
  refine ⟨?_, ?_, ?_⟩ <;>
  · simp only [keyDownTail]
    split_ifs <;> (repeat' split) <;> rfl

set_option maxHeartbeats 1000000 in
/-- Key-down handling never changes a lock flag. -/
theorem keyeventDown_locks (st : Settings) (ly : Layout) (os : Nat → Int) (s : State)
    (e : KeyEvent) :
    (keyeventDown st ly os s e).1.shiftLockActive = s.shiftLockActive ∧
      (keyeventDown st ly os s e).1.capsLockActive = s.capsLockActive ∧
      (keyeventDown st ly os s e).1.level4LockActive = s.level4LockActive := by
  refine ⟨?_, ?_, ?_⟩ <;>
  · simp only [keyeventDown]
    split_ifs <;>
      first
        | rfl
        | exact (keyDownTail_locks st ly os _ e).1
        | exact (keyDownTail_locks st ly os _ e).2.1
        | exact (keyDownTail_locks st ly os _ e).2.2

set_option maxHeartbeats 1000000 in
/-- Lock flags change only on key-up transitions: every key-down (also the
bypass toggle and injected events) leaves all three lock flags unchanged. -/
theorem stepState_locks_down (st : Settings) (ly : Layout) (os : Nat → Int) (s : State)
    (e : KeyEvent) (hd : isKeyDownEvent e = true) :
    (stepState st ly os s e).shiftLockActive = s.shiftLockActive ∧
      (stepState st ly os s e).capsLockActive = s.capsLockActive ∧
      (stepState st ly os s e).level4LockActive = s.level4LockActive := by
  have hup := not_up_of_down e hd
  have hup' : (e.wparam == WM_SYSKEYUP || e.wparam == WM_KEYUP) = false := hup
  refine ⟨?_, ?_, ?_⟩ <;>
  · simp only [stepState, keyevent]
    split_ifs <;>
      first
        | rfl
        | exact (keyeventDown_locks st ly os s e).1
        | exact (keyeventDown_locks st ly os s e).2.1
        | exact (keyeventDown_locks st ly os s e).2.2
        | simp_all

set_option maxHeartbeats 1000000 in
/-- A left-shift key-down (scan code 42) outside bypass mode: arms the
shift press flags, clears the sole-key flags, swallows the event. -/
theorem shiftL_down_step (st : Settings) (ly : Layout) (os : Nat → Int) (s : State)
    (hbp : s.bypassMode = false) :
    stepState st ly os s { wparam := WM_KEYDOWN, scanCode := 42, vkCode := VK_LSHIFT } =
      { s with
        level3modLeftAndNoOtherKeyPressed := false,
        level3modRightAndNoOtherKeyPressed := false,
        level4modLeftAndNoOtherKeyPressed := false,
        shiftPressed := true, shiftLeftPressed := true } := by
  simp only [stepState, keyevent, keyeventDown, keyDownTail]
  simp [hbp, isShift, WM_KEYDOWN, WM_KEYUP, WM_SYSKEYDOWN, WM_SYSKEYUP, VK_LSHIFT, VK_RSHIFT, VK_SHIFT, VK_LCONTROL, VK_RCONTROL, VK_LMENU, VK_LWIN, VK_RWIN, VK_RMENU, HC_ACTION, LLKHF_INJECTED]

set_option maxHeartbeats 1000000 in
/-- A left-shift key-up (scan code 42) outside bypass mode while the right
shift key is held: performs the lock toggle of the configured kind. -/
theorem shiftL_up_step (st : Settings) (ly : Layout) (os : Nat → Int) (s : State)
    (hbp : s.bypassMode = false) (hr : s.shiftRightPressed = true) :
    stepState st ly os s { wparam := WM_KEYUP, scanCode := 42, vkCode := VK_LSHIFT } =
      { s with
        shiftLeftPressed := false, shiftPressed := true,
        shiftLockActive :=
          if st.shiftLockEnabled = true then !s.shiftLockActive else s.shiftLockActive,
        capsLockActive :=
          if st.shiftLockEnabled = true then s.capsLockActive
          else if st.capsLockEnabled = true then !s.capsLockActive else s.capsLockActive } := by
  simp only [stepState, keyevent, keyeventUp]
  simp [hbp, isShift, hr, WM_KEYDOWN, WM_KEYUP, WM_SYSKEYDOWN, WM_SYSKEYUP, VK_LSHIFT, VK_RSHIFT, VK_SHIFT, VK_LCONTROL, VK_RCONTROL, VK_LMENU, VK_LWIN, VK_RWIN, VK_RMENU, HC_ACTION, LLKHF_INJECTED]
  cases st.shiftLockEnabled <;> cases st.capsLockEnabled <;> simp

set_option maxHeartbeats 1000000 in
/-- Key-up handling preserves the lock/enable invariant. -/
theorem keyeventUp_lockInv (st : Settings) (s : State) (e : KeyEvent)
    (h : lockInv st s) : lockInv st (keyeventUp st s e).1 := by
  obtain ⟨h1, h2⟩ := h
  constructor <;> intro henb <;>
  · simp only [keyeventUp]
    split_ifs <;> simp_all

/-- One hook invocation preserves the lock/enable invariant. -/
theorem stepState_lockInv (st : Settings) (ly : Layout) (os : Nat → Int) (s : State)
    (e : KeyEvent) (h : lockInv st s) : lockInv st (stepState st ly os s e) := by
  constructor
  · intro henb
    simp only [stepState, keyevent]
    split_ifs <;>
      first
        | exact h.1 henb
        | exact (keyeventUp_lockInv st s e h).1 henb
        | exact ((keyeventDown_locks st ly os s e).2.1).trans (h.1 henb)
  · intro henb
    simp only [stepState, keyevent]
    split_ifs <;>
      first
        | exact h.2 henb
        | exact (keyeventUp_lockInv st s e h).2 henb
        | exact ((keyeventDown_locks st ly os s e).1).trans (h.2 henb)

/-- With sanitized settings, the invariant forbids both locks being armed
at once. -/
theorem sanitized_locks_never_both (s0 : Settings) (s : State)
    (hinv : lockInv (s0.sanitize) s) :
    ¬(s.shiftLockActive = true ∧ s.capsLockActive = true) := by
  rintro ⟨ha, hb⟩
  by_cases hce : (s0.sanitize).capsLockEnabled = true
  · have := hinv.2 (sanitize_locks_exclusive s0 hce)
    rw [this] at ha
    exact Bool.false_ne_true ha
  · have := hinv.1 (by simpa using hce)
    rw [this] at hb
    exact Bool.false_ne_true hb

set_option maxHeartbeats 1000000 in
/-- One press-and-release of the left shift key while the right shift key
is held: the lock toggle happens exactly once. -/
theorem shift_gesture_once (st : Settings) (ly : Layout) (os : Nat → Int) (x : State)
    (hbp : x.bypassMode = false) (hr : x.shiftRightPressed = true) :
    stepState st ly os
        (stepState st ly os x { wparam := WM_KEYDOWN, scanCode := 42, vkCode := VK_LSHIFT })
        { wparam := WM_KEYUP, scanCode := 42, vkCode := VK_LSHIFT } =
      { x with
        level3modLeftAndNoOtherKeyPressed := false,
        level3modRightAndNoOtherKeyPressed := false,
        level4modLeftAndNoOtherKeyPressed := false,
        shiftLeftPressed := false, shiftPressed := true,
        shiftLockActive :=
          if st.shiftLockEnabled = true then !x.shiftLockActive else x.shiftLockActive,
        capsLockActive :=
          if st.shiftLockEnabled = true then x.capsLockActive
          else if st.capsLockEnabled = true then !x.capsLockActive else x.capsLockActive } := by
  rw [shiftL_down_step st ly os x hbp]
  rw [shiftL_up_step st ly os _ (by simpa using hbp) (by simpa using hr)]

set_option maxHeartbeats 1000000 in
/-- Performing the press-and-release gesture of the left shift key twice,
while the right shift key stays held, returns all lock flags to their
original values. -/
theorem double_shift_gesture (st : Settings) (ly : Layout) (os : Nat → Int) (s : State)
    (hr : s.shiftRightPressed = true) (hbp : s.bypassMode = false) :
    ((runState st ly os s
        [{ wparam := WM_KEYDOWN, scanCode := 42, vkCode := VK_LSHIFT },
         { wparam := WM_KEYUP, scanCode := 42, vkCode := VK_LSHIFT },
         { wparam := WM_KEYDOWN, scanCode := 42, vkCode := VK_LSHIFT },
         { wparam := WM_KEYUP, scanCode := 42, vkCode := VK_LSHIFT }]).shiftLockActive =
          s.shiftLockActive ∧
      (runState st ly os s
        [{ wparam := WM_KEYDOWN, scanCode := 42, vkCode := VK_LSHIFT },
         { wparam := WM_KEYUP, scanCode := 42, vkCode := VK_LSHIFT },
         { wparam := WM_KEYDOWN, scanCode := 42, vkCode := VK_LSHIFT },
         { wparam := WM_KEYUP, scanCode := 42, vkCode := VK_LSHIFT }]).capsLockActive =
          s.capsLockActive ∧
      (runState st ly os s
        [{ wparam := WM_KEYDOWN, scanCode := 42, vkCode := VK_LSHIFT },
         { wparam := WM_KEYUP, scanCode := 42, vkCode := VK_LSHIFT },
         { wparam := WM_KEYDOWN, scanCode := 42, vkCode := VK_LSHIFT },
         { wparam := WM_KEYUP, scanCode := 42, vkCode := VK_LSHIFT }]).level4LockActive =
          s.level4LockActive) := by
  simp only [runState]
  rw [shift_gesture_once st ly os s hbp hr]
  rw [shift_gesture_once st ly os _ (by simpa using hbp) (by simpa using hr)]
  refine ⟨?_, ?_, ?_⟩ <;>
    cases hsl : st.shiftLockEnabled <;> cases hcl : st.capsLockEnabled <;> simp [hsl, hcl]

/-- C3: releasing one shift key while the other is still held toggles
`shiftLockActive` if `shiftLockEnabled` is set, else `capsLockActive` if
`capsLockEnabled` is set, exactly once per such release and only on
key-up (key-downs never change a lock flag); performing the gesture twice
returns the lock flags to their original values; and under sanitized
settings the two locks are never both armed (via the invariant `lockInv`,
which holds initially and is preserved by every hook invocation). -/
theorem shift_lock_toggle_spec :
    (∀ s0 : Settings, (s0.sanitize).capsLockEnabled = true →
      (s0.sanitize).shiftLockEnabled = false) ∧
    (∀ (st : Settings) (ly : Layout) (os : Nat → Int) (s : State) (e : KeyEvent),
      e.code = HC_ACTION → isKeyUpEvent e = true → e.flags &&& LLKHF_INJECTED = 0 →
      s.bypassMode = false → e.vkCode = VK_RSHIFT → s.shiftLeftPressed = true →
      (stepState st ly os s e).shiftLockActive =
          (if st.shiftLockEnabled = true then !s.shiftLockActive else s.shiftLockActive) ∧
        (stepState st ly os s e).capsLockActive =
          (if st.shiftLockEnabled = true then s.capsLockActive
           else if st.capsLockEnabled = true then !s.capsLockActive else s.capsLockActive) ∧
        (stepState st ly os s e).level4LockActive = s.level4LockActive) ∧
    (∀ (st : Settings) (ly : Layout) (os : Nat → Int) (s : State) (e : KeyEvent),
      e.code = HC_ACTION → isKeyUpEvent e = true → e.flags &&& LLKHF_INJECTED = 0 →
      s.bypassMode = false → isShift e = true → e.vkCode ≠ VK_RSHIFT →
      s.shiftRightPressed = true →
      (stepState st ly os s e).shiftLockActive =
          (if st.shiftLockEnabled = true then !s.shiftLockActive else s.shiftLockActive) ∧
        (stepState st ly os s e).capsLockActive =
          (if st.shiftLockEnabled = true then s.capsLockActive
           else if st.capsLockEnabled = true then !s.capsLockActive else s.capsLockActive) ∧
        (stepState st ly os s e).level4LockActive = s.level4LockActive) ∧
    (∀ (st : Settings) (ly : Layout) (os : Nat → Int) (s : State) (e : KeyEvent),
      isKeyDownEvent e = true →
      (stepState st ly os s e).shiftLockActive = s.shiftLockActive ∧
        (stepState st ly os s e).capsLockActive = s.capsLockActive ∧
        (stepState st ly os s e).level4LockActive = s.level4LockActive) ∧
    (∀ (st : Settings) (ly : Layout) (os : Nat → Int) (s : State),
      s.shiftRightPressed = true → s.bypassMode = false →
      (runState st ly os s
        [{ wparam := WM_KEYDOWN, scanCode := 42, vkCode := VK_LSHIFT },
         { wparam := WM_KEYUP, scanCode := 42, vkCode := VK_LSHIFT },
         { wparam := WM_KEYDOWN, scanCode := 42, vkCode := VK_LSHIFT },
         { wparam := WM_KEYUP, scanCode := 42, vkCode := VK_LSHIFT }]).shiftLockActive =
          s.shiftLockActive ∧
      (runState st ly os s
        [{ wparam := WM_KEYDOWN, scanCode := 42, vkCode := VK_LSHIFT },
         { wparam := WM_KEYUP, scanCode := 42, vkCode := VK_LSHIFT },
         { wparam := WM_KEYDOWN, scanCode := 42, vkCode := VK_LSHIFT },
         { wparam := WM_KEYUP, scanCode := 42, vkCode := VK_LSHIFT }]).capsLockActive =
          s.capsLockActive) ∧
    (∀ st : Settings, lockInv st initState) ∧
    (∀ (st : Settings) (ly : Layout) (os : Nat → Int) (s : State) (e : KeyEvent),
      lockInv st s → lockInv st (stepState st ly os s e)) ∧
    (∀ (s0 : Settings) (s : State), lockInv (s0.sanitize) s →
      ¬(s.shiftLockActive = true ∧ s.capsLockActive = true)) := by
  refine ⟨sanitize_locks_exclusive, ?_, ?_, ?_, ?_, ?_, stepState_lockInv,
    sanitized_locks_never_both⟩
  · intro st ly os s e hc hu hinj hbp hvk hheld
    exact shiftR_release_toggle st ly os s e hc hu hinj hbp hvk hheld
  · intro st ly os s e hc hu hinj hbp hsh hvk hheld
    exact shiftL_release_toggle st ly os s e hc hu hinj hbp hsh hvk hheld
  · intro st ly os s e hd
    exact stepState_locks_down st ly os s e hd
  · intro st ly os s hrp hbp
    exact ⟨(double_shift_gesture st ly os s hrp hbp).1,
      (double_shift_gesture st ly os s hrp hbp).2.1⟩
  · intro st
    exact ⟨fun _ => rfl, fun _ => rfl⟩

theorem shift_lock_toggle_spec_witness :
    (stepState ({ shiftLockEnabled := true } : Settings) (buildLayout {}) (fun _ => -1)
        { initState with
          shiftLeftPressed := true, shiftRightPressed := true, shiftPressed := true }
        { wparam := WM_KEYUP, scanCode := 54, vkCode := VK_RSHIFT }).shiftLockActive =
      (if ({ shiftLockEnabled := true } : Settings).shiftLockEnabled = true then
        !({ initState with
            shiftLeftPressed := true, shiftRightPressed := true,
            shiftPressed := true } : State).shiftLockActive
       else ({ initState with
            shiftLeftPressed := true, shiftRightPressed := true,
            shiftPressed := true } : State).shiftLockActive) :=
  (shift_lock_toggle_spec.2.1 ({ shiftLockEnabled := true } : Settings) (buildLayout {})
    (fun _ => -1)
    { initState with
      shiftLeftPressed := true, shiftRightPressed := true, shiftPressed := true }
    { wparam := WM_KEYUP, scanCode := 54, vkCode := VK_RSHIFT }
    rfl (by decide) rfl rfl rfl rfl).1

/-! ## C10: unchecked table lookups and the scan-code bound -/

theorem mkSpecials_length (kou : Bool) : (mkSpecials kou).length = MAPPING_LEN := by
  cases kou <;> decide

theorem buildLayout_specials_length (st : Settings) :
    (buildLayout st).level4_specials.length = MAPPING_LEN := by
  have h : (buildLayout st).level4_specials = mkSpecials (buildLayout st).is_kou_or_vue := rfl
  rw [h, mkSpecials_length]

/-- C10: the tables indexed by `mapScanCodeToChar` and the level-4 specials
lookup are fixed 103-entry arrays: for every scan code below
`MAPPING_LEN = 103` the checked lookup succeeds and returns exactly the
unchecked lookup's value (zero meaning "no mapping"), while for every scan
code ≥ 103 the in-bounds condition `scanCodeInBounds` of the embedded
lookup is violated and the checked lookup has no value (the C source
indexes the array regardless); and the classifier's guard chain
(`reachesTableLookup`, transcribed from main.cpp lines 571–823) reaches the
lookup for a hook-delivered key-down with scan code 103 without any bounds
validation — on that event the classifier consumes the out-of-bounds
lookup (modelled as the zero default) and passes the event through. -/
theorem unchecked_scan_code_lookup :
    (∀ (st : Settings) (lv : Level) (i : Nat), scanCodeInBounds i →
      ((buildLayout st).atLevel lv)[i]? = some (mapScanCodeToChar (buildLayout st) lv i)) ∧
    (∀ (st : Settings) (lv : Level) (i : Nat), ¬scanCodeInBounds i →
      ((buildLayout st).atLevel lv)[i]? = none) ∧
    (∀ (st : Settings) (i : Nat), scanCodeInBounds i →
      ((buildLayout st).level4_specials)[i]? =
        some ((buildLayout st).level4_specials.getD i 0)) ∧
    (∀ (st : Settings) (i : Nat), ¬scanCodeInBounds i →
      ((buildLayout st).level4_specials)[i]? = none) ∧
    (reachesTableLookup {} (buildLayout {}) (fun _ => -1) initState
        { wparam := WM_KEYDOWN, scanCode := 103, vkCode := 0x41 } = true ∧
      ¬scanCodeInBounds
        ({ wparam := WM_KEYDOWN, scanCode := 103, vkCode := 0x41 } : KeyEvent).scanCode ∧
      mapScanCodeToChar (buildLayout {}) (computeLevel {} initState) 103 = 0 ∧
      (keyevent {} (buildLayout {}) (fun _ => -1) initState
        { wparam := WM_KEYDOWN, scanCode := 103, vkCode := 0x41 }).2.2 =
        HookResult.callNext) := by
  refine ⟨?_, ?_, ?_, ?_, by decide, by unfold scanCodeInBounds; decide, ?_, ?_⟩
  · intro st lv i h
    have hi : i < ((buildLayout st).atLevel lv).length := by
      rw [buildLayout_atLevel_length st lv]; exact h
    rw [List.getElem?_eq_getElem hi]
    simp [mapScanCodeToChar, List.getD_eq_getElem?_getD, List.getElem?_eq_getElem hi]
  · intro st lv i h
    exact List.getElem?_eq_none
      (by rw [buildLayout_atLevel_length st lv]; exact Nat.le_of_not_lt h)
  · intro st i h
    have hi : i < ((buildLayout st).level4_specials).length := by
      rw [buildLayout_specials_length st]; exact h
    rw [List.getElem?_eq_getElem hi]
    simp [List.getD_eq_getElem?_getD, List.getElem?_eq_getElem hi]
  · intro st i h
    exact List.getElem?_eq_none
      (by rw [buildLayout_specials_length st]; exact Nat.le_of_not_lt h)
  · rfl
  · rfl

theorem unchecked_scan_code_lookup_witness :
    ((buildLayout {}).atLevel Level.l1)[21]? =
      some (mapScanCodeToChar (buildLayout {}) Level.l1 21) :=
  unchecked_scan_code_lookup.1 {} Level.l1 21 (by unfold scanCodeInBounds; decide)
